import Mathlib

/-!
# Verification of the LinkedIn profile scraper CLI (`src/main.py`)

This file gives a shallow embedding of the scraper client in `src/main.py`.
The program is a sequential CLI that drives the Lobstr.io REST API:
every effect (HTTP request, blocking sleep, file read/write, log line,
console print, `input()` prompt) is recorded as an `Event` in a trace, and
all nondeterminism (HTTP responses, user input, file contents, the current
timestamp) is supplied by an oracle environment `Env`.

Modelling conventions (each is noted again at the definition it concerns):
* Parsed JSON bodies are modelled by the inductive `JVal`; `dict.get(k)`
  is `JVal.get`, `dict.get(k, d)` is `JVal.getD`, Python truthiness is
  `JVal.truthy`.
* HTTP responses are drawn from `Env.http`, indexed by how many requests
  have been made so far; a `requests` failure (connection error or a
  status that makes `raise_for_status` throw) is `HttpResult.failure e`
  where `e` tags the identity of the raised `RequestException`.
* `logging` calls are recorded as `Event.logMsg` events.  In the real
  program each such call appends a line to the log file `scraper.log`
  (via the configured `FileHandler`) and echoes it to the console; the
  interpolated dynamic values of the message are not reproduced, only the
  static text and the level.
* Python `while True:` loops are given a fuel parameter; running out of
  fuel yields the distinguished outcome `Err.diverge`, which models
  nontermination and is not a Python exception (no handler catches it).
* The `KeyboardInterrupt` handling inside `run_and_poll` (an interactive
  Ctrl-C path) is outside the embedding, as are `IOError`s on local file
  writes: the modelled file system never fails.
-/

/-- Parsed JSON values, as returned by `response.json()`. -/
inductive JVal where
  | null
  | bool (b : Bool)
  | num (n : Int)
  | str (s : String)
  | arr (xs : List JVal)
  | obj (fields : List (String × JVal))

mutual

/-- Python `==` on JSON trees. -/
def JVal.beq : JVal → JVal → Bool
  | .null, .null => true
  | .bool a, .bool b => a == b
  | .num a, .num b => a == b
  | .str a, .str b => a == b
  | .arr a, .arr b => JVal.beqList a b
  | .obj a, .obj b => JVal.beqFields a b
  | _, _ => false

def JVal.beqList : List JVal → List JVal → Bool
  | [], [] => true
  | x :: xs, y :: ys => JVal.beq x y && JVal.beqList xs ys
  | _, _ => false

def JVal.beqFields : List (String × JVal) → List (String × JVal) → Bool
  | [], [] => true
  | (k1, v1) :: xs, (k2, v2) :: ys =>
    k1 == k2 && JVal.beq v1 v2 && JVal.beqFields xs ys
  | _, _ => false

end

instance : BEq JVal := ⟨JVal.beq⟩

mutual

theorem JVal.beq_iff : ∀ a b : JVal, JVal.beq a b = true ↔ a = b
  | .null, .null => by simp [JVal.beq]
  | .bool a, .bool b => by simp [JVal.beq]
  | .num a, .num b => by simp [JVal.beq]
  | .str a, .str b => by simp [JVal.beq]
  | .arr a, .arr b => by
    simp only [JVal.beq, JVal.beqList_iff a b, JVal.arr.injEq]
  | .obj a, .obj b => by
    simp only [JVal.beq, JVal.beqFields_iff a b, JVal.obj.injEq]
  | .null, .bool _ | .null, .num _ | .null, .str _ | .null, .arr _
  | .null, .obj _ | .bool _, .null | .bool _, .num _ | .bool _, .str _
  | .bool _, .arr _ | .bool _, .obj _ | .num _, .null | .num _, .bool _
  | .num _, .str _ | .num _, .arr _ | .num _, .obj _ | .str _, .null
  | .str _, .bool _ | .str _, .num _ | .str _, .arr _ | .str _, .obj _
  | .arr _, .null | .arr _, .bool _ | .arr _, .num _ | .arr _, .str _
  | .arr _, .obj _ | .obj _, .null | .obj _, .bool _ | .obj _, .num _
  | .obj _, .str _ | .obj _, .arr _ => by simp [JVal.beq]

theorem JVal.beqList_iff : ∀ a b : List JVal, JVal.beqList a b = true ↔ a = b
  | [], [] => by simp [JVal.beqList]
  | x :: xs, y :: ys => by
    simp only [JVal.beqList, Bool.and_eq_true, JVal.beq_iff x y,
      JVal.beqList_iff xs ys, List.cons.injEq]
  | [], _ :: _ => by simp [JVal.beqList]
  | _ :: _, [] => by simp [JVal.beqList]

theorem JVal.beqFields_iff :
    ∀ a b : List (String × JVal), JVal.beqFields a b = true ↔ a = b
  | [], [] => by simp [JVal.beqFields]
  | (k1, v1) :: xs, (k2, v2) :: ys => by
    simp only [JVal.beqFields, Bool.and_eq_true, beq_iff_eq,
      JVal.beq_iff v1 v2, JVal.beqFields_iff xs ys, List.cons.injEq,
      Prod.mk.injEq, and_assoc]
  | [], _ :: _ => by simp [JVal.beqFields]
  | _ :: _, [] => by simp [JVal.beqFields]

end

instance : DecidableEq JVal := fun a b =>
  decidable_of_iff (JVal.beq a b = true) (JVal.beq_iff a b)

/-- Python `dict.get(k)`: the value at key `k`, or `None` when missing.
Calling `.get` on a non-dict raises `AttributeError` in Python; no claim
exercises that path and the model returns `null` there. -/
def JVal.get (v : JVal) (k : String) : JVal :=
  match v with
  | .obj fs => match fs.lookup k with
    | some x => x
    | none => .null
  | _ => .null

/-- Python `dict.get(k, d)` with an explicit default. -/
def JVal.getD (v : JVal) (k : String) (d : JVal) : JVal :=
  match v with
  | .obj fs => match fs.lookup k with
    | some x => x
    | none => d
  | _ => d

/-- Iterating over a JSON value (`for s in all_squids`).  Python raises
`TypeError` on non-lists; no claim exercises that path. -/
def JVal.items : JVal → List JVal
  | .arr xs => xs
  | _ => []

/-- Python truthiness, as used by `if stats.get('is_done'):` and
`if not s3_url:`. -/
def JVal.truthy : JVal → Bool
  | .null => false
  | .bool b => b
  | .num n => n != 0
  | .str s => s != ""
  | .arr xs => !xs.isEmpty
  | .obj fs => !fs.isEmpty

/-- Python `str()` of a JSON value, as used when interpolating ids into
URLs (`f"{base_url}/squids/{squid_hash}"`).  Composite values are
abbreviated; the ids interpolated by the program are strings, for which
this is exact. -/
def JVal.pyStr : JVal → String
  | .str s => s
  | .null => "None"
  | .bool true => "True"
  | .bool false => "False"
  | .num n => toString n
  | .arr _ => "<list>"
  | .obj _ => "<dict>"

/-- Python `str.strip()` with no argument: remove leading and trailing
whitespace.  (Python strips all Unicode whitespace; the model strips the
ASCII whitespace recognised by `Char.isWhitespace`.) -/
def pyStrip (s : String) : String :=
  ⟨(((s.data.dropWhile Char.isWhitespace).reverse).dropWhile Char.isWhitespace).reverse⟩

/-- Python `str.lower()` restricted to ASCII letters. -/
def pyLower (s : String) : String := ⟨s.data.map Char.toLower⟩

/-- Python `int(s)` on a string with no surrounding whitespace (the
program strips before parsing): an optional sign, then digit groups
separated by single underscores.  (CPython also accepts non-ASCII
decimal digits; those are outside the model.) -/
def pyDigitGroups : List Char → List (List Char)
  | [] => [[]]
  | c :: cs =>
    match pyDigitGroups cs with
    | [] => [[c]]
    | g :: gs => if c = '_' then [] :: g :: gs else (c :: g) :: gs

def pyNatOfDigits (cs : List Char) : Nat :=
  cs.foldl (fun a c => a * 10 + (c.toNat - 48)) 0

def pyIntCore (cs : List Char) : Option Int :=
  if cs.isEmpty then none
  else
    let groups := pyDigitGroups cs
    if groups.any (fun g => g.isEmpty || g.any (fun c => !c.isDigit)) then none
    else some (Int.ofNat (pyNatOfDigits groups.flatten))

def pyInt? (s : String) : Option Int :=
  match s.data with
  | '+' :: rest => pyIntCore rest
  | '-' :: rest => (pyIntCore rest).map Int.neg
  | rest => pyIntCore rest

/-! ## Constants of `LiProfileScraper` and module-level paths -/

def LINKEDIN_PROFILE_CRAWLER_ID : String := "5c11752d8687df2332c08247c4fb655a"

def DEFAULT_INPUT_FILE : String := "urls.txt"

def CACHE_FILE_NAME : String := ".squid_id"

def DEFAULT_POLL_INTERVAL : Nat := 10

def CSV_GENERATION_WAIT : Nat := 5

/-- The directory of the script; an abstract absolute path. -/
def SCRIPT_DIR : String := "/scraper"

/-- `os.path.join(d, f)` for a relative `f` (the program always joins a
relative file name; the absolute-`f` special case of `os.path.join` is
not modelled). -/
def ospathjoin (d f : String) : String := d ++ "/" ++ f

def LOG_FILE : String := ospathjoin SCRIPT_DIR "scraper.log"

def base_url : String := "https://api.lobstr.io/v1"

/-- `self.squid_cache_file`. -/
def squid_cache_file : String := ospathjoin SCRIPT_DIR CACHE_FILE_NAME

/-! ## Effects: events, oracle environment, state, errors -/

inductive Method where
  | get
  | post
  | delete
deriving DecidableEq

/-- The target of an HTTP request.  `api segs` is the URL
`base_url ++ "/" ++ (String.intercalate "/" segs)` with the
authorization headers attached; `external u` is a bare URL fetched
without headers (the S3 download). -/
inductive Target where
  | api (segs : List String)
  | external (url : String)
deriving DecidableEq

structure HttpReq where
  method : Method
  target : Target
  body : Option JVal
  params : List (String × String)
deriving DecidableEq

inductive LogLevel where
  | info
  | warning
  | error
  | critical
deriving DecidableEq

/-- Which file-writing API produced a write: `json.dump(data, f)` in
`save_to_json`, the binary `f.write(csv_response.content)` of
`download_csv` (file opened with mode `wb`), or the plain text
`f.write(squid_id)` of `_cache_squid_id`. -/
inductive WriteMode where
  | jsonDump
  | binary
  | text
deriving DecidableEq

inductive Event where
  | http (req : HttpReq)
  | sleep (seconds : Nat)
  | fileRead (path : String)
  | fileWrite (path : String) (mode : WriteMode) (content : JVal)
  | logMsg (level : LogLevel) (msg : String)
  | consoleOut (msg : String)
  | promptInput (msg : String)
deriving DecidableEq

/-- Result of one HTTP round trip.  `failure e` covers both a connection
error raised by `requests` itself and an error status raised by
`raise_for_status`; `e` tags the identity of the `RequestException`. -/
inductive HttpResult where
  | failure (e : Nat)
  | success (body : JVal)
deriving DecidableEq

/-- The oracle environment: responses to the n-th HTTP request, the n-th
line typed at an `input()` prompt, the file system (a file is a list of
its lines), and the `datetime.now()` timestamp string used in result
file names. -/
structure Env where
  http : Nat → HttpResult
  userInput : Nat → String
  files : String → Option (List String)
  timestamp : String

/-- Counters threading the oracles. -/
structure St where
  httpCount : Nat
  inputCount : Nat
deriving DecidableEq

inductive Err where
  | requestException (e : Nat)
  | valueError (msg : String)
  | fileNotFound (msg : String)
  | diverge
deriving DecidableEq

/-! ## The trace monad -/

def M (α : Type) : Type := Env → St → Except Err α × List Event × St

def M.pure {α : Type} (a : α) : M α := fun _ s => (.ok a, [], s)

def M.bind {α β : Type} (x : M α) (f : α → M β) : M β := fun env s =>
  match x env s with
  | (.ok a, t, s1) =>
    match f a env s1 with
    | (r, t2, s2) => (r, t ++ t2, s2)
  | (.error e, t, s1) => (.error e, t, s1)

instance : Monad M where
  pure := M.pure
  bind := M.bind

/-- `except requests.exceptions.RequestException as e:` around `x`. -/
def M.catchReq {α : Type} (x : M α) (h : Nat → M α) : M α := fun env s =>
  match x env s with
  | (.error (.requestException e), t, s1) =>
    match h e env s1 with
    | (r, t2, s2) => (r, t ++ t2, s2)
  | r => r

/-- `except Exception as e:` around `x` (catches every Python exception;
`Err.diverge` is not an exception and passes through). -/
def M.catchExc {α : Type} (x : M α) (h : Err → M α) : M α := fun env s =>
  match x env s with
  | (.error Err.diverge, t, s1) => (.error Err.diverge, t, s1)
  | (.error e, t, s1) =>
    match h e env s1 with
    | (r, t2, s2) => (r, t ++ t2, s2)
  | r => r

def M.raise {α : Type} (e : Err) : M α := fun _ s => (.error e, [], s)

def emit (e : Event) : M Unit := fun _ s => (.ok (), [e], s)

def logInfo (m : String) : M Unit := emit (.logMsg .info m)

def logWarn (m : String) : M Unit := emit (.logMsg .warning m)

def logError (m : String) : M Unit := emit (.logMsg .error m)

def logCritical (m : String) : M Unit := emit (.logMsg .critical m)

def printLine (m : String) : M Unit := emit (.consoleOut m)

/-- Several `print` calls in a row (the per-item listing loops). -/
def printEach (msgs : List String) : M Unit := fun _ s =>
  (.ok (), msgs.map Event.consoleOut, s)

/-- `input(msg)`: consumes the next line of user input. -/
def readInputLine (msg : String) : M String := fun env s =>
  (.ok (env.userInput s.inputCount), [Event.promptInput msg],
    { s with inputCount := s.inputCount + 1 })

/-- One `requests.<method>(...)` round trip: emits the request event and
consumes the next oracle response. -/
def httpRequest (m : Method) (t : Target) (body : Option JVal)
    (params : List (String × String)) : M HttpResult := fun env s =>
  (.ok (env.http s.httpCount), [Event.http ⟨m, t, body, params⟩],
    { s with httpCount := s.httpCount + 1 })

/-- `response.raise_for_status()` merged with the connection-failure
path: a `failure` becomes a raised `RequestException`. -/
def raiseForStatus (r : HttpResult) : M JVal :=
  match r with
  | .failure e => M.raise (.requestException e)
  | .success b => M.pure b

/-- `datetime.now().strftime(...)`: the oracle's timestamp string. -/
def nowStamp : M String := fun env s => (.ok env.timestamp, [], s)

/-- `os.path.exists` + `open(file_path)`: `none` when the file does not
exist; a successful open of the URL list is recorded as a `fileRead`. -/
def readLines (path : String) : M (Option (List String)) := fun env s =>
  match env.files path with
  | none => (.ok none, [], s)
  | some ls => (.ok (some ls), [Event.fileRead path], s)

/-! ## `LiProfileScraper`: squid management -/

/-- `create_squid(self)`. -/
def create_squid : M JVal :=
  M.catchReq
    (do
      logInfo "Creating new squid for crawler..."
      let r ← httpRequest .post (.api ["squids"])
        (some (JVal.obj [("crawler", .str LINKEDIN_PROFILE_CRAWLER_ID)])) []
      let body ← raiseForStatus r
      let squid_id := body.get "id"
      logInfo "Squid created successfully."
      M.pure squid_id)
    (fun e => do
      logError "Failed to create squid."
      M.raise (.requestException e))

/-- `update_squid(self, squid_hash, account_id, enrich_email=False)`. -/
def update_squid (squid_hash account_id : JVal) (enrich_email : Bool) : M Unit :=
  M.catchReq
    (do
      logInfo "Updating squid settings with account..."
      let r ← httpRequest .post (.api ["squids", squid_hash.pyStr])
        (some (JVal.obj
          [("accounts", .arr [account_id]),
           ("no_line_breaks", .bool true),
           ("params", .obj [("functions", .obj [("email", .bool enrich_email)])])])) []
      let _ ← raiseForStatus r
      logInfo "Squid updated successfully.")
    (fun e => do
      logError "Failed to update squid."
      M.raise (.requestException e))

/-- `empty_squid(self, squid_hash)`. -/
def empty_squid (squid_hash : JVal) : M JVal :=
  M.catchReq
    (do
      logInfo "Emptying squid..."
      let r ← httpRequest .post (.api ["squids", squid_hash.pyStr, "empty"])
        (some (JVal.obj [("type", .str "url")])) []
      let body ← raiseForStatus r
      logInfo "Squid emptied successfully."
      M.pure body)
    (fun e => do
      logError "Failed to empty squid."
      M.raise (.requestException e))

/-- `delete_squid(self, squid_hash)`. -/
def delete_squid (squid_hash : JVal) : M JVal :=
  M.catchReq
    (do
      logInfo "Deleting squid..."
      let r ← httpRequest .delete (.api ["squids", squid_hash.pyStr]) none []
      let body ← raiseForStatus r
      logInfo "Squid deleted successfully."
      M.pure body)
    (fun e => do
      logError "Failed to delete squid."
      M.raise (.requestException e))

/-- `list_squids(self)`. -/
def list_squids : M JVal :=
  M.catchReq
    (do
      logInfo "Listing squids..."
      let r ← httpRequest .get (.api ["squids"]) none []
      let data ← raiseForStatus r
      logInfo "Fetched squids."
      M.pure data)
    (fun e => do
      logError "Failed to list squids."
      M.raise (.requestException e))

/-- The filter in `get_linkedin_squids`:
`[s for s in all_squids if s.get('crawler') == self.LINKEDIN_PROFILE_CRAWLER_ID]`. -/
def linkedinSquidsOf (squids_data : JVal) : List JVal :=
  (squids_data.getD "data" (.arr [])).items.filter
    (fun s => s.get "crawler" == JVal.str LINKEDIN_PROFILE_CRAWLER_ID)

/-- `get_linkedin_squids(self)`. -/
def get_linkedin_squids : M (List JVal) := do
  let squids_data ← list_squids
  M.pure (linkedinSquidsOf squids_data)

/-! ## `LiProfileScraper`: account management -/

/-- `list_accounts(self)`. -/
def list_accounts : M JVal :=
  M.catchReq
    (do
      logInfo "Listing accounts..."
      let r ← httpRequest .get (.api ["accounts"]) none []
      let data ← raiseForStatus r
      logInfo "Fetched accounts."
      M.pure data)
    (fun e => do
      logError "Failed to list accounts."
      M.raise (.requestException e))

/-- The filter in `get_linkedin_accounts`:
`[a for a in all_accounts if a.get('type') == 'linkedin-sync']`. -/
def linkedinAccountsOf (accounts_data : JVal) : List JVal :=
  (accounts_data.getD "data" (.arr [])).items.filter
    (fun a => a.get "type" == JVal.str "linkedin-sync")

/-- `get_linkedin_accounts(self)`. -/
def get_linkedin_accounts : M (List JVal) := do
  let accounts_data ← list_accounts
  M.pure (linkedinAccountsOf accounts_data)

/-! ## `LiProfileScraper`: task management -/

/-- The list comprehension reading the URL file:
`urls = [line.strip() for line in f if line.strip()]`. -/
def stripNonBlank (lines : List String) : List String :=
  lines.filterMap (fun l => if pyStrip l = "" then none else some (pyStrip l))

/-- The JSON body posted to `/tasks`:
`{"tasks": [{"url": u} for u in urls], "squid": squid_hash}`. -/
def tasksPayload (urls : List String) (squid_hash : JVal) : JVal :=
  .obj [("tasks", .arr (urls.map (fun u => .obj [("url", .str u)]))),
        ("squid", squid_hash)]

/-- `add_tasks(self, squid_hash, input_source, is_file=True)`.  The
source wraps only the POST in `try/except RequestException`; wrapping
the whole body in `catchReq` is equivalent because the file-handling
part can only raise `FileNotFoundError`, which `catchReq` passes
through. -/
def add_tasks (squid_hash : JVal) (input_source : String) (is_file : Bool) : M Nat :=
  M.catchReq
    (do
      let urls ←
        if is_file then do
          let file_path := ospathjoin SCRIPT_DIR input_source
          let contents ← readLines file_path
          match contents with
          | none => do
            logError "Task file not found."
            M.raise (.fileNotFound ("File " ++ file_path ++ " not found."))
          | some ls => M.pure (stripNonBlank ls)
        else
          if pyStrip input_source ≠ "" then M.pure [pyStrip input_source]
          else M.pure ([] : List String)
      if urls.isEmpty then do
        logWarn "No URLs found to process."
        M.pure 0
      else do
        logInfo "Adding tasks to squid..."
        let r ← httpRequest .post (.api ["tasks"]) (some (tasksPayload urls squid_hash)) []
        let _ ← raiseForStatus r
        logInfo "Successfully added tasks."
        M.pure urls.length)
    (fun e => do
      logError "Failed to add tasks."
      M.raise (.requestException e))

/-! ## `LiProfileScraper`: run management -/

/-- `abort_run(self, run_hash)`. -/
def abort_run (run_hash : JVal) : M JVal :=
  M.catchReq
    (do
      logInfo "Aborting run..."
      let r ← httpRequest .post (.api ["runs", run_hash.pyStr, "abort"]) none []
      let body ← raiseForStatus r
      logInfo "Run aborted successfully."
      M.pure body)
    (fun e => do
      logError "Failed to abort run."
      M.raise (.requestException e))

/-- The `while True:` polling loop of `run_and_poll`, with fuel.  The
`except KeyboardInterrupt` arm (interactive Ctrl-C) is outside the
model. -/
def poll_loop (run_hash : JVal) : Nat → M JVal
  | 0 => M.raise .diverge
  | fuel + 1 => do
    let r ← httpRequest .get (.api ["runs", run_hash.pyStr, "stats"]) none []
    let stats ← raiseForStatus r
    logInfo "Progress..."
    if (stats.get "is_done").truthy then do
      logInfo "Run completed."
      M.pure run_hash
    else do
      emit (.sleep DEFAULT_POLL_INTERVAL)
      poll_loop run_hash fuel

/-- `run_and_poll(self, squid_hash)`. -/
def run_and_poll (squid_hash : JVal) (fuel : Nat) : M JVal :=
  M.catchReq
    (do
      logInfo "Starting run for squid..."
      let r ← httpRequest .post (.api ["runs"]) (some (JVal.obj [("squid", squid_hash)])) []
      let body ← raiseForStatus r
      let run_hash := body.get "id"
      logInfo "Run started."
      poll_loop run_hash fuel)
    (fun e => do
      logError "Error during run or polling."
      M.raise (.requestException e))

/-! ## `LiProfileScraper`: results management -/

/-- `fetch_results(self, run_hash)`. -/
def fetch_results (run_hash : JVal) : M JVal :=
  M.catchReq
    (do
      logInfo "Fetching results for run..."
      let r ← httpRequest .get (.api ["results"]) none [("run", run_hash.pyStr)]
      let data ← raiseForStatus r
      logInfo "Fetched results."
      M.pure data)
    (fun e => do
      logError "Failed to fetch results."
      M.raise (.requestException e))

/-- `save_to_json(self, data, filename=None)`; the `IOError` path is
outside the model (the modelled file system never fails). -/
def save_to_json (data : JVal) (filename : Option String) : M Unit := do
  let ts ← nowStamp
  let fname :=
    match filename with
    | none => "results_" ++ ts ++ ".json"
    | some f => f
  emit (.fileWrite (ospathjoin SCRIPT_DIR fname) .jsonDump data)
  logInfo "Successfully saved profiles."

/-- `download_csv(self, run_hash, filename=None)`. -/
def download_csv (run_hash : JVal) (filename : Option String) : M Unit :=
  M.catchReq
    (do
      logInfo "Initiating CSV download for run..."
      let r ← httpRequest .get (.api ["runs", run_hash.pyStr, "download"]) none []
      let body ← raiseForStatus r
      let s3_url := body.get "s3"
      if !s3_url.truthy then
        logError "No S3 URL returned for CSV download."
      else do
        logInfo "Waiting for CSV generation..."
        emit (.sleep CSV_GENERATION_WAIT)
        let r2 ← httpRequest .get (.external s3_url.pyStr) none []
        let content ← raiseForStatus r2
        let ts ← nowStamp
        let fname :=
          match filename with
          | none => "results_" ++ ts ++ ".csv"
          | some f => f
        emit (.fileWrite (ospathjoin SCRIPT_DIR fname) .binary content)
        logInfo "Successfully downloaded CSV.")
    (fun e => do
      logError "Failed to download CSV."
      M.raise (.requestException e))

/-- `_cache_squid_id(self, squid_id)` (the `IOError` arm only logs a
warning and the modelled file system never fails). -/
def cache_squid_id (squid_id : JVal) : M Unit :=
  emit (.fileWrite squid_cache_file .text squid_id)

/-! ## `CLIInterface` -/

/-- `prompt_squid_selection(self)`.  The user's line is processed as
`input(...).strip().lower()`; `squids[selection_idx]` is guarded by the
range check of the source, so `getD` with a dummy default is exact. -/
def prompt_squid_selection : M (JVal × Bool) := do
  let squids ← get_linkedin_squids
  if squids.isEmpty then do
    logInfo "No existing LinkedIn squids found. Creating a new one."
    let new_id ← create_squid
    cache_squid_id new_id
    M.pure (new_id, true)
  else do
    printLine "--- Available LinkedIn Squids ---"
    printEach (squids.map (fun squid => "ID: " ++ (squid.get "id").pyStr))
    printLine "[N] Create New Squid"
    printLine "---------------------------------"
    let raw ← readInputLine "Select a Squid (number) or N for new: "
    let choice := pyLower (pyStrip raw)
    if choice = "n" then do
      let new_id ← create_squid
      cache_squid_id new_id
      M.pure (new_id, true)
    else
      match pyInt? choice with
      | some k =>
        let selection_idx : Int := k - 1
        if 0 ≤ selection_idx ∧ selection_idx < (squids.length : Int) then do
          let selected_id := (squids.getD selection_idx.toNat .null).get "id"
          logInfo "Selected existing squid."
          cache_squid_id selected_id
          M.pure (selected_id, false)
        else do
          printLine "Invalid selection. Creating new squid."
          let new_id ← create_squid
          cache_squid_id new_id
          M.pure (new_id, true)
      | none => do
        printLine "Invalid input. Creating new squid."
        let new_id ← create_squid
        cache_squid_id new_id
        M.pure (new_id, true)

/-- The `while True:` retry loop of `prompt_account_selection`, with
fuel.  `int(choice)` on the stripped line, then the range check. -/
def account_choice_loop (accounts : List JVal) : Nat → M JVal
  | 0 => M.raise .diverge
  | fuel + 1 => do
    let raw ← readInputLine "Select an Account (number): "
    let choice := pyStrip raw
    match pyInt? choice with
    | some k =>
      let selection_idx : Int := k - 1
      if 0 ≤ selection_idx ∧ selection_idx < (accounts.length : Int) then do
        let selected_id := (accounts.getD selection_idx.toNat .null).get "id"
        logInfo "Selected account."
        M.pure selected_id
      else do
        printLine "Invalid selection. Try again."
        account_choice_loop accounts fuel
    | none => do
      printLine "Invalid input. Please enter a number."
      account_choice_loop accounts fuel

/-- `prompt_account_selection(self)`. -/
def prompt_account_selection (fuel : Nat) : M JVal := do
  let accounts ← get_linkedin_accounts
  if accounts.isEmpty then do
    logError "No LinkedIn accounts found. Please add a LinkedIn account on Lobstr.io first."
    M.raise (.valueError "No LinkedIn accounts available.")
  else if accounts.length = 1 then do
    logInfo "Auto-selecting only available LinkedIn account."
    M.pure ((accounts.getD 0 .null).get "id")
  else do
    printLine "--- Available Accounts ---"
    printEach (accounts.map (fun acc => "ID: " ++ (acc.get "id").pyStr))
    printLine "--------------------------"
    account_choice_loop accounts fuel

/-- `prompt_empty_squid(self, squid_hash)`; note the source applies
`.lower()` but not `.strip()` to this answer. -/
def prompt_empty_squid (squid_hash : JVal) : M Unit := do
  let raw ← readInputLine "Empty existing tasks from this Squid? (y/N): "
  if pyLower raw = "y" then do
    let _ ← empty_squid squid_hash
    M.pure ()
  else
    M.pure ()

/-- How the `try:` body of `run_interactive_scrape` exited when no
exception was raised: `nothingToProcess` is the early `return` taken
when `add_tasks` reported `0`, `finished` is the fall-through end of the
body.  (Python returns `None` on both paths; the outcome is a ghost
value distinguishing them, invisible to the caller.) -/
inductive ScrapeOutcome where
  | finished
  | nothingToProcess
deriving DecidableEq

/-- The `try:` body of `run_interactive_scrape(self, input_source,
is_file, enrich_email)`, steps 1-7 of the source. -/
def scrape_steps (input_source : String) (is_file enrich_email : Bool)
    (fuel : Nat) : M ScrapeOutcome := do
  let sel ← prompt_squid_selection
  let account_id ← prompt_account_selection fuel
  update_squid sel.1 account_id enrich_email
  if !sel.2 then prompt_empty_squid sel.1
  let count ← add_tasks sel.1 input_source is_file
  if count = 0 then do
    logInfo "Nothing to process. Exiting."
    M.pure .nothingToProcess
  else do
    let r_hash ← run_and_poll sel.1 fuel
    let final_data ← fetch_results r_hash
    save_to_json final_data none
    download_csv r_hash none
    M.pure .finished

/-- `run_interactive_scrape`: the body above wrapped in
`except Exception as e: logger.critical(...)`. -/
def run_interactive_scrape (input_source : String) (is_file enrich_email : Bool)
    (fuel : Nat) : M Unit :=
  M.catchExc
    (do
      let _ ← scrape_steps input_source is_file enrich_email fuel
      M.pure ())
    (fun _ => logCritical "Scraper execution failed.")

/-! ## Observable steps

To state ordering claims we project a trace onto the externally visible
operations: each HTTP endpoint of the API, the URL-list read and the
three kinds of file writes.  The classification reads only the shape of
the event (method, path segments, file path), never the surrounding
code. -/

inductive Step where
  | listSquids
  | createSquid
  | updateSquid
  | emptySquid
  | deleteSquid
  | listAccounts
  | addTasks
  | startRun
  | pollStats
  | abortRun
  | fetchResults
  | downloadReq
  | s3Get
  | readUrls
  | writeCache
  | writeJson
  | writeCsv
deriving DecidableEq

def stepOf : Event → Option Step
  | .http ⟨.get, .api ["squids"], _, _⟩ => some .listSquids
  | .http ⟨.post, .api ["squids"], _, _⟩ => some .createSquid
  | .http ⟨.post, .api [_, _], _, _⟩ => some .updateSquid
  | .http ⟨.post, .api [_, _, "empty"], _, _⟩ => some .emptySquid
  | .http ⟨.delete, .api [_, _], _, _⟩ => some .deleteSquid
  | .http ⟨.get, .api ["accounts"], _, _⟩ => some .listAccounts
  | .http ⟨.post, .api ["tasks"], _, _⟩ => some .addTasks
  | .http ⟨.post, .api ["runs"], _, _⟩ => some .startRun
  | .http ⟨.get, .api [_, _, "stats"], _, _⟩ => some .pollStats
  | .http ⟨.post, .api [_, _, "abort"], _, _⟩ => some .abortRun
  | .http ⟨.get, .api ["results"], _, _⟩ => some .fetchResults
  | .http ⟨.get, .api [_, _, "download"], _, _⟩ => some .downloadReq
  | .http ⟨.get, .external _, _, _⟩ => some .s3Get
  | .fileRead _ => some .readUrls
  | .fileWrite _ .jsonDump _ => some .writeJson
  | .fileWrite _ .binary _ => some .writeCsv
  | .fileWrite _ .text _ => some .writeCache
  | _ => none

/-- The projection of a trace onto observable steps. -/
def stepsOf (tr : List Event) : List Step := tr.filterMap stepOf

/-! ## Running the monad: unfolding lemmas -/

theorem M.run_bind {α β : Type} (x : M α) (f : α → M β) (env : Env) (s : St) :
    (x >>= f) env s =
      match x env s with
      | (.ok a, t, s1) =>
        match f a env s1 with
        | (r, t2, s2) => (r, t ++ t2, s2)
      | (.error e, t, s1) => (.error e, t, s1) := rfl

theorem M.run_pure {α : Type} (a : α) (env : Env) (s : St) :
    (Pure.pure a : M α) env s = (.ok a, [], s) := rfl

/-- The event and oracle consumption of one HTTP round trip. -/
theorem run_httpRequest (m : Method) (t : Target) (body : Option JVal)
    (params : List (String × String)) (env : Env) (s : St) :
    httpRequest m t body params env s =
      (.ok (env.http s.httpCount), [Event.http ⟨m, t, body, params⟩],
        { s with httpCount := s.httpCount + 1 }) := rfl

/-- `create_squid`, run against the oracle. -/
theorem create_squid_run (env : Env) (s : St) :
    create_squid env s =
      match env.http s.httpCount with
      | .success b =>
        (.ok (b.get "id"),
          [.logMsg .info "Creating new squid for crawler...",
           .http ⟨.post, .api ["squids"],
             some (JVal.obj [("crawler", .str LINKEDIN_PROFILE_CRAWLER_ID)]), []⟩,
           .logMsg .info "Squid created successfully."],
          { s with httpCount := s.httpCount + 1 })
      | .failure e =>
        (.error (.requestException e),
          [.logMsg .info "Creating new squid for crawler...",
           .http ⟨.post, .api ["squids"],
             some (JVal.obj [("crawler", .str LINKEDIN_PROFILE_CRAWLER_ID)]), []⟩,
           .logMsg .error "Failed to create squid."],
          { s with httpCount := s.httpCount + 1 }) := by
  cases h : env.http s.httpCount <;>
    simp [create_squid, M.catchReq, Bind.bind, M.bind, Pure.pure, M.pure,
      logInfo, logError, emit, httpRequest, raiseForStatus, M.raise, h]

/-- `update_squid`, run against the oracle: the payload always carries
exactly the one account id. -/
theorem update_squid_run (squid_hash account_id : JVal) (enrich_email : Bool)
    (env : Env) (s : St) :
    update_squid squid_hash account_id enrich_email env s =
      match env.http s.httpCount with
      | .success _ =>
        (.ok (),
          [.logMsg .info "Updating squid settings with account...",
           .http ⟨.post, .api ["squids", squid_hash.pyStr],
             some (JVal.obj
               [("accounts", .arr [account_id]),
                ("no_line_breaks", .bool true),
                ("params", .obj [("functions", .obj [("email", .bool enrich_email)])])]), []⟩,
           .logMsg .info "Squid updated successfully."],
          { s with httpCount := s.httpCount + 1 })
      | .failure e =>
        (.error (.requestException e),
          [.logMsg .info "Updating squid settings with account...",
           .http ⟨.post, .api ["squids", squid_hash.pyStr],
             some (JVal.obj
               [("accounts", .arr [account_id]),
                ("no_line_breaks", .bool true),
                ("params", .obj [("functions", .obj [("email", .bool enrich_email)])])]), []⟩,
           .logMsg .error "Failed to update squid."],
          { s with httpCount := s.httpCount + 1 }) := by
  cases h : env.http s.httpCount <;>
    simp [update_squid, M.catchReq, Bind.bind, M.bind, Pure.pure, M.pure,
      logInfo, logError, emit, httpRequest, raiseForStatus, M.raise, h]

/-- `empty_squid`, run against the oracle. -/
theorem empty_squid_run (squid_hash : JVal) (env : Env) (s : St) :
    empty_squid squid_hash env s =
      match env.http s.httpCount with
      | .success b =>
        (.ok b,
          [.logMsg .info "Emptying squid...",
           .http ⟨.post, .api ["squids", squid_hash.pyStr, "empty"],
             some (JVal.obj [("type", .str "url")]), []⟩,
           .logMsg .info "Squid emptied successfully."],
          { s with httpCount := s.httpCount + 1 })
      | .failure e =>
        (.error (.requestException e),
          [.logMsg .info "Emptying squid...",
           .http ⟨.post, .api ["squids", squid_hash.pyStr, "empty"],
             some (JVal.obj [("type", .str "url")]), []⟩,
           .logMsg .error "Failed to empty squid."],
          { s with httpCount := s.httpCount + 1 }) := by
  cases h : env.http s.httpCount <;>
    simp [empty_squid, M.catchReq, Bind.bind, M.bind, Pure.pure, M.pure,
      logInfo, logError, emit, httpRequest, raiseForStatus, M.raise, h]

/-- `delete_squid`, run against the oracle. -/
theorem delete_squid_run (squid_hash : JVal) (env : Env) (s : St) :
    delete_squid squid_hash env s =
      match env.http s.httpCount with
      | .success b =>
        (.ok b,
          [.logMsg .info "Deleting squid...",
           .http ⟨.delete, .api ["squids", squid_hash.pyStr], none, []⟩,
           .logMsg .info "Squid deleted successfully."],
          { s with httpCount := s.httpCount + 1 })
      | .failure e =>
        (.error (.requestException e),
          [.logMsg .info "Deleting squid...",
           .http ⟨.delete, .api ["squids", squid_hash.pyStr], none, []⟩,
           .logMsg .error "Failed to delete squid."],
          { s with httpCount := s.httpCount + 1 }) := by
  cases h : env.http s.httpCount <;>
    simp [delete_squid, M.catchReq, Bind.bind, M.bind, Pure.pure, M.pure,
      logInfo, logError, emit, httpRequest, raiseForStatus, M.raise, h]

/-- `list_squids`, run against the oracle. -/
theorem list_squids_run (env : Env) (s : St) :
    list_squids env s =
      match env.http s.httpCount with
      | .success b =>
        (.ok b,
          [.logMsg .info "Listing squids...",
           .http ⟨.get, .api ["squids"], none, []⟩,
           .logMsg .info "Fetched squids."],
          { s with httpCount := s.httpCount + 1 })
      | .failure e =>
        (.error (.requestException e),
          [.logMsg .info "Listing squids...",
           .http ⟨.get, .api ["squids"], none, []⟩,
           .logMsg .error "Failed to list squids."],
          { s with httpCount := s.httpCount + 1 }) := by
  cases h : env.http s.httpCount <;>
    simp [list_squids, M.catchReq, Bind.bind, M.bind, Pure.pure, M.pure,
      logInfo, logError, emit, httpRequest, raiseForStatus, M.raise, h]

/-- `list_accounts`, run against the oracle. -/
theorem list_accounts_run (env : Env) (s : St) :
    list_accounts env s =
      match env.http s.httpCount with
      | .success b =>
        (.ok b,
          [.logMsg .info "Listing accounts...",
           .http ⟨.get, .api ["accounts"], none, []⟩,
           .logMsg .info "Fetched accounts."],
          { s with httpCount := s.httpCount + 1 })
      | .failure e =>
        (.error (.requestException e),
          [.logMsg .info "Listing accounts...",
           .http ⟨.get, .api ["accounts"], none, []⟩,
           .logMsg .error "Failed to list accounts."],
          { s with httpCount := s.httpCount + 1 }) := by
  cases h : env.http s.httpCount <;>
    simp [list_accounts, M.catchReq, Bind.bind, M.bind, Pure.pure, M.pure,
      logInfo, logError, emit, httpRequest, raiseForStatus, M.raise, h]

/-- `get_linkedin_squids`, run against the oracle. -/
theorem get_linkedin_squids_run (env : Env) (s : St) :
    get_linkedin_squids env s =
      match env.http s.httpCount with
      | .success b =>
        (.ok (linkedinSquidsOf b),
          [.logMsg .info "Listing squids...",
           .http ⟨.get, .api ["squids"], none, []⟩,
           .logMsg .info "Fetched squids."],
          { s with httpCount := s.httpCount + 1 })
      | .failure e =>
        (.error (.requestException e),
          [.logMsg .info "Listing squids...",
           .http ⟨.get, .api ["squids"], none, []⟩,
           .logMsg .error "Failed to list squids."],
          { s with httpCount := s.httpCount + 1 }) := by
  cases h : env.http s.httpCount <;>
    simp [get_linkedin_squids, list_squids_run, Bind.bind, M.bind,
      Pure.pure, M.pure, h]

/-- `get_linkedin_accounts`, run against the oracle. -/
theorem get_linkedin_accounts_run (env : Env) (s : St) :
    get_linkedin_accounts env s =
      match env.http s.httpCount with
      | .success b =>
        (.ok (linkedinAccountsOf b),
          [.logMsg .info "Listing accounts...",
           .http ⟨.get, .api ["accounts"], none, []⟩,
           .logMsg .info "Fetched accounts."],
          { s with httpCount := s.httpCount + 1 })
      | .failure e =>
        (.error (.requestException e),
          [.logMsg .info "Listing accounts...",
           .http ⟨.get, .api ["accounts"], none, []⟩,
           .logMsg .error "Failed to list accounts."],
          { s with httpCount := s.httpCount + 1 }) := by
  cases h : env.http s.httpCount <;>
    simp [get_linkedin_accounts, list_accounts_run, Bind.bind, M.bind,
      Pure.pure, M.pure, h]

/-- `abort_run`, run against the oracle. -/
theorem abort_run_run (run_hash : JVal) (env : Env) (s : St) :
    abort_run run_hash env s =
      match env.http s.httpCount with
      | .success b =>
        (.ok b,
          [.logMsg .info "Aborting run...",
           .http ⟨.post, .api ["runs", run_hash.pyStr, "abort"], none, []⟩,
           .logMsg .info "Run aborted successfully."],
          { s with httpCount := s.httpCount + 1 })
      | .failure e =>
        (.error (.requestException e),
          [.logMsg .info "Aborting run...",
           .http ⟨.post, .api ["runs", run_hash.pyStr, "abort"], none, []⟩,
           .logMsg .error "Failed to abort run."],
          { s with httpCount := s.httpCount + 1 }) := by
  cases h : env.http s.httpCount <;>
    simp [abort_run, M.catchReq, Bind.bind, M.bind, Pure.pure, M.pure,
      logInfo, logError, emit, httpRequest, raiseForStatus, M.raise, h]

/-- `fetch_results`, run against the oracle. -/
theorem fetch_results_run (run_hash : JVal) (env : Env) (s : St) :
    fetch_results run_hash env s =
      match env.http s.httpCount with
      | .success b =>
        (.ok b,
          [.logMsg .info "Fetching results for run...",
           .http ⟨.get, .api ["results"], none, [("run", run_hash.pyStr)]⟩,
           .logMsg .info "Fetched results."],
          { s with httpCount := s.httpCount + 1 })
      | .failure e =>
        (.error (.requestException e),
          [.logMsg .info "Fetching results for run...",
           .http ⟨.get, .api ["results"], none, [("run", run_hash.pyStr)]⟩,
           .logMsg .error "Failed to fetch results."],
          { s with httpCount := s.httpCount + 1 }) := by
  cases h : env.http s.httpCount <;>
    simp [fetch_results, M.catchReq, Bind.bind, M.bind, Pure.pure, M.pure,
      logInfo, logError, emit, httpRequest, raiseForStatus, M.raise, h]

/-- `save_to_json` with the default (timestamped) filename. -/
theorem save_to_json_run (data : JVal) (env : Env) (s : St) :
    save_to_json data none env s =
      (.ok (),
        [.fileWrite (ospathjoin SCRIPT_DIR ("results_" ++ env.timestamp ++ ".json")) .jsonDump data,
         .logMsg .info "Successfully saved profiles."], s) := by
  simp [save_to_json, Bind.bind, M.bind, Pure.pure, M.pure, logInfo, emit,
    nowStamp]

/-- `cache_squid_id` writes the squid id to the cache file. -/
theorem cache_squid_id_run (squid_id : JVal) (env : Env) (s : St) :
    cache_squid_id squid_id env s =
      (.ok (), [.fileWrite squid_cache_file .text squid_id], s) := rfl

/-- `download_csv` with the default filename, run against the oracle:
the download request, then — only when the response carries a truthy
`s3` URL — the wait, the S3 fetch and the file write. -/
theorem download_csv_run (run_hash : JVal) (env : Env) (s : St) :
    download_csv run_hash none env s =
      match env.http s.httpCount with
      | .failure e =>
        (.error (.requestException e),
          [.logMsg .info "Initiating CSV download for run...",
           .http ⟨.get, .api ["runs", run_hash.pyStr, "download"], none, []⟩,
           .logMsg .error "Failed to download CSV."],
          { s with httpCount := s.httpCount + 1 })
      | .success b =>
        if (b.get "s3").truthy then
          match env.http (s.httpCount + 1) with
          | .failure e =>
            (.error (.requestException e),
              [.logMsg .info "Initiating CSV download for run...",
               .http ⟨.get, .api ["runs", run_hash.pyStr, "download"], none, []⟩,
               .logMsg .info "Waiting for CSV generation...",
               .sleep CSV_GENERATION_WAIT,
               .http ⟨.get, .external (b.get "s3").pyStr, none, []⟩,
               .logMsg .error "Failed to download CSV."],
              { s with httpCount := s.httpCount + 1 + 1 })
          | .success content =>
            (.ok (),
              [.logMsg .info "Initiating CSV download for run...",
               .http ⟨.get, .api ["runs", run_hash.pyStr, "download"], none, []⟩,
               .logMsg .info "Waiting for CSV generation...",
               .sleep CSV_GENERATION_WAIT,
               .http ⟨.get, .external (b.get "s3").pyStr, none, []⟩,
               .fileWrite (ospathjoin SCRIPT_DIR ("results_" ++ env.timestamp ++ ".csv")) .binary content,
               .logMsg .info "Successfully downloaded CSV."],
              { s with httpCount := s.httpCount + 1 + 1 })
        else
          (.ok (),
            [.logMsg .info "Initiating CSV download for run...",
             .http ⟨.get, .api ["runs", run_hash.pyStr, "download"], none, []⟩,
             .logMsg .error "No S3 URL returned for CSV download."],
            { s with httpCount := s.httpCount + 1 }) := by
  cases h1 : env.http s.httpCount with
  | failure e =>
    simp [download_csv, M.catchReq, Bind.bind, M.bind, Pure.pure, M.pure,
      logInfo, logError, emit, httpRequest, raiseForStatus, M.raise, nowStamp, h1]
  | success b =>
    by_cases h2 : (b.get "s3").truthy
    · cases h3 : env.http (s.httpCount + 1) <;>
        simp [download_csv, M.catchReq, Bind.bind, M.bind, Pure.pure, M.pure,
          logInfo, logError, emit, httpRequest, raiseForStatus, M.raise,
          nowStamp, h1, h2, h3]
    · simp [download_csv, M.catchReq, Bind.bind, M.bind, Pure.pure, M.pure,
        logInfo, logError, emit, httpRequest, raiseForStatus, M.raise,
        nowStamp, h1, h2]

/-- `add_tasks` in file mode when the URL list file does not exist. -/
theorem add_tasks_file_missing (squid_hash : JVal) (input_source : String)
    (env : Env) (s : St)
    (h : env.files (ospathjoin SCRIPT_DIR input_source) = none) :
    add_tasks squid_hash input_source true env s =
      (.error (.fileNotFound ("File " ++ ospathjoin SCRIPT_DIR input_source ++ " not found.")),
        [.logMsg .error "Task file not found."], s) := by
  simp [add_tasks, M.catchReq, Bind.bind, M.bind, Pure.pure, M.pure,
    logInfo, logError, emit, readLines, M.raise, h]

/-- `add_tasks` in file mode on an existing file: one task per
non-blank stripped line, and the returned count is the number of those
lines. -/
theorem add_tasks_file_run (squid_hash : JVal) (input_source : String)
    (env : Env) (s : St) (ls : List String)
    (h : env.files (ospathjoin SCRIPT_DIR input_source) = some ls) :
    add_tasks squid_hash input_source true env s =
      (if stripNonBlank ls = [] then
        (.ok 0,
          [.fileRead (ospathjoin SCRIPT_DIR input_source),
           .logMsg .warning "No URLs found to process."], s)
      else
        match env.http s.httpCount with
        | .success _ =>
          (.ok (stripNonBlank ls).length,
            [.fileRead (ospathjoin SCRIPT_DIR input_source),
             .logMsg .info "Adding tasks to squid...",
             .http ⟨.post, .api ["tasks"],
               some (tasksPayload (stripNonBlank ls) squid_hash), []⟩,
             .logMsg .info "Successfully added tasks."],
            { s with httpCount := s.httpCount + 1 })
        | .failure e =>
          (.error (.requestException e),
            [.fileRead (ospathjoin SCRIPT_DIR input_source),
             .logMsg .info "Adding tasks to squid...",
             .http ⟨.post, .api ["tasks"],
               some (tasksPayload (stripNonBlank ls) squid_hash), []⟩,
             .logMsg .error "Failed to add tasks."],
            { s with httpCount := s.httpCount + 1 })) := by
  by_cases hu : stripNonBlank ls = []
  · simp [add_tasks, M.catchReq, Bind.bind, M.bind, Pure.pure, M.pure,
      logInfo, logError, logWarn, emit, readLines, httpRequest,
      raiseForStatus, M.raise, h, hu]
  · cases h2 : env.http s.httpCount <;>
      simp [add_tasks, M.catchReq, Bind.bind, M.bind, Pure.pure, M.pure,
        logInfo, logError, logWarn, emit, readLines, httpRequest,
        raiseForStatus, M.raise, h, hu, h2]

/-- `add_tasks` in single-URL mode. -/
theorem add_tasks_single_run (squid_hash : JVal) (input_source : String)
    (env : Env) (s : St) :
    add_tasks squid_hash input_source false env s =
      (if pyStrip input_source = "" then
        (.ok 0, [.logMsg .warning "No URLs found to process."], s)
      else
        match env.http s.httpCount with
        | .success _ =>
          (.ok 1,
            [.logMsg .info "Adding tasks to squid...",
             .http ⟨.post, .api ["tasks"],
               some (tasksPayload [pyStrip input_source] squid_hash), []⟩,
             .logMsg .info "Successfully added tasks."],
            { s with httpCount := s.httpCount + 1 })
        | .failure e =>
          (.error (.requestException e),
            [.logMsg .info "Adding tasks to squid...",
             .http ⟨.post, .api ["tasks"],
               some (tasksPayload [pyStrip input_source] squid_hash), []⟩,
             .logMsg .error "Failed to add tasks."],
            { s with httpCount := s.httpCount + 1 })) := by
  by_cases ht : pyStrip input_source = ""
  · simp [add_tasks, M.catchReq, Bind.bind, M.bind, Pure.pure, M.pure,
      logInfo, logError, logWarn, emit, httpRequest, raiseForStatus,
      M.raise, ht]
  · cases h2 : env.http s.httpCount <;>
      simp [add_tasks, M.catchReq, Bind.bind, M.bind, Pure.pure, M.pure,
        logInfo, logError, logWarn, emit, httpRequest, raiseForStatus,
        M.raise, ht, h2]

/-- The polling loop with no fuel left models nontermination. -/
theorem poll_loop_zero (run_hash : JVal) (env : Env) (s : St) :
    poll_loop run_hash 0 env s = (.error .diverge, [], s) := rfl

/-- One unfolding of the polling loop: a stats request, then either the
final poll (when `is_done` is truthy), a propagated request failure, or
a `DEFAULT_POLL_INTERVAL` sleep followed by the rest of the loop. -/
theorem poll_loop_succ (run_hash : JVal) (fuel : Nat) (env : Env) (s : St) :
    poll_loop run_hash (fuel + 1) env s =
      match env.http s.httpCount with
      | .failure e =>
        (.error (.requestException e),
          [.http ⟨.get, .api ["runs", run_hash.pyStr, "stats"], none, []⟩],
          { s with httpCount := s.httpCount + 1 })
      | .success stats =>
        if (stats.get "is_done").truthy then
          (.ok run_hash,
            [.http ⟨.get, .api ["runs", run_hash.pyStr, "stats"], none, []⟩,
             .logMsg .info "Progress...",
             .logMsg .info "Run completed."],
            { s with httpCount := s.httpCount + 1 })
        else
          ((poll_loop run_hash fuel env { s with httpCount := s.httpCount + 1 }).1,
            [.http ⟨.get, .api ["runs", run_hash.pyStr, "stats"], none, []⟩,
             .logMsg .info "Progress...",
             .sleep DEFAULT_POLL_INTERVAL] ++
              (poll_loop run_hash fuel env { s with httpCount := s.httpCount + 1 }).2.1,
            (poll_loop run_hash fuel env { s with httpCount := s.httpCount + 1 }).2.2) := by
  cases h1 : env.http s.httpCount with
  | failure e =>
    simp [poll_loop, Bind.bind, M.bind, Pure.pure, M.pure, logInfo, emit,
      httpRequest, raiseForStatus, M.raise, h1]
  | success stats =>
    by_cases h2 : (stats.get "is_done").truthy
    · simp [poll_loop, Bind.bind, M.bind, Pure.pure, M.pure, logInfo, emit,
        httpRequest, raiseForStatus, M.raise, h1, h2]
    · rcases h3 : poll_loop run_hash fuel env { s with httpCount := s.httpCount + 1 }
        with ⟨r, t, s2⟩
      simp [poll_loop, Bind.bind, M.bind, Pure.pure, M.pure, logInfo, emit,
        httpRequest, raiseForStatus, M.raise, h1, h2, h3]

/-- `run_and_poll`, run against the oracle: the start request, then the
polling loop; a `RequestException` anywhere is logged and re-raised. -/
theorem run_and_poll_run (squid_hash : JVal) (fuel : Nat) (env : Env) (s : St) :
    run_and_poll squid_hash fuel env s =
      match env.http s.httpCount with
      | .failure e =>
        (.error (.requestException e),
          [.logMsg .info "Starting run for squid...",
           .http ⟨.post, .api ["runs"], some (JVal.obj [("squid", squid_hash)]), []⟩,
           .logMsg .error "Error during run or polling."],
          { s with httpCount := s.httpCount + 1 })
      | .success b =>
        match (poll_loop (b.get "id") fuel env { s with httpCount := s.httpCount + 1 }) with
        | (.ok rh, t, s2) =>
          (.ok rh,
            [.logMsg .info "Starting run for squid...",
             .http ⟨.post, .api ["runs"], some (JVal.obj [("squid", squid_hash)]), []⟩,
             .logMsg .info "Run started."] ++ t, s2)
        | (.error (.requestException e), t, s2) =>
          (.error (.requestException e),
            [.logMsg .info "Starting run for squid...",
             .http ⟨.post, .api ["runs"], some (JVal.obj [("squid", squid_hash)]), []⟩,
             .logMsg .info "Run started."] ++ t ++
              [.logMsg .error "Error during run or polling."], s2)
        | (.error e, t, s2) =>
          (.error e,
            [.logMsg .info "Starting run for squid...",
             .http ⟨.post, .api ["runs"], some (JVal.obj [("squid", squid_hash)]), []⟩,
             .logMsg .info "Run started."] ++ t, s2) := by
  cases h1 : env.http s.httpCount with
  | failure e =>
    simp [run_and_poll, M.catchReq, Bind.bind, M.bind, Pure.pure, M.pure,
      logInfo, logError, emit, httpRequest, raiseForStatus, M.raise, h1]
  | success b =>
    rcases h3 : poll_loop (b.get "id") fuel env { s with httpCount := s.httpCount + 1 }
      with ⟨r, t, s2⟩
    cases r with
    | ok rh =>
      simp [run_and_poll, M.catchReq, Bind.bind, M.bind, Pure.pure, M.pure,
        logInfo, logError, emit, httpRequest, raiseForStatus, M.raise, h1, h3]
    | error e =>
      cases e <;>
        simp [run_and_poll, M.catchReq, Bind.bind, M.bind, Pure.pure, M.pure,
          logInfo, logError, emit, httpRequest, raiseForStatus, M.raise, h1, h3]

/-- `prompt_empty_squid`: the confirmation prompt, then `empty_squid`
only on a `y` answer. -/
theorem prompt_empty_squid_run (squid_hash : JVal) (env : Env) (s : St) :
    prompt_empty_squid squid_hash env s =
      (if pyLower (env.userInput s.inputCount) = "y" then
        match env.http s.httpCount with
        | .success _ =>
          (.ok (),
            [.promptInput "Empty existing tasks from this Squid? (y/N): ",
             .logMsg .info "Emptying squid...",
             .http ⟨.post, .api ["squids", squid_hash.pyStr, "empty"],
               some (JVal.obj [("type", .str "url")]), []⟩,
             .logMsg .info "Squid emptied successfully."],
            ⟨s.httpCount + 1, s.inputCount + 1⟩)
        | .failure e =>
          (.error (.requestException e),
            [.promptInput "Empty existing tasks from this Squid? (y/N): ",
             .logMsg .info "Emptying squid...",
             .http ⟨.post, .api ["squids", squid_hash.pyStr, "empty"],
               some (JVal.obj [("type", .str "url")]), []⟩,
             .logMsg .error "Failed to empty squid."],
            ⟨s.httpCount + 1, s.inputCount + 1⟩)
      else
        (.ok (), [.promptInput "Empty existing tasks from this Squid? (y/N): "],
          { s with inputCount := s.inputCount + 1 })) := by
  obtain ⟨hc, ic⟩ := s
  by_cases hy : pyLower (env.userInput ic) = "y"
  · cases h2 : env.http hc <;>
      simp [prompt_empty_squid, empty_squid_run, Bind.bind, M.bind, Pure.pure,
        M.pure, readInputLine, hy, h2]
  · simp [prompt_empty_squid, Bind.bind, M.bind, Pure.pure, M.pure,
      readInputLine, hy]

/-- The account retry loop with no fuel left models nontermination. -/
theorem account_choice_loop_zero (accounts : List JVal) (env : Env) (s : St) :
    account_choice_loop accounts 0 env s = (.error .diverge, [], s) := rfl

/-- One unfolding of the account retry loop. -/
theorem account_choice_loop_succ (accounts : List JVal) (fuel : Nat)
    (env : Env) (s : St) :
    account_choice_loop accounts (fuel + 1) env s =
      match pyInt? (pyStrip (env.userInput s.inputCount)) with
      | some k =>
        if 0 ≤ k - 1 ∧ k - 1 < (accounts.length : Int) then
          (.ok ((accounts.getD (k - 1).toNat .null).get "id"),
            [.promptInput "Select an Account (number): ",
             .logMsg .info "Selected account."],
            { s with inputCount := s.inputCount + 1 })
        else
          ((account_choice_loop accounts fuel env { s with inputCount := s.inputCount + 1 }).1,
            [.promptInput "Select an Account (number): ",
             .consoleOut "Invalid selection. Try again."] ++
              (account_choice_loop accounts fuel env { s with inputCount := s.inputCount + 1 }).2.1,
            (account_choice_loop accounts fuel env { s with inputCount := s.inputCount + 1 }).2.2)
      | none =>
        ((account_choice_loop accounts fuel env { s with inputCount := s.inputCount + 1 }).1,
          [.promptInput "Select an Account (number): ",
           .consoleOut "Invalid input. Please enter a number."] ++
            (account_choice_loop accounts fuel env { s with inputCount := s.inputCount + 1 }).2.1,
          (account_choice_loop accounts fuel env { s with inputCount := s.inputCount + 1 }).2.2) := by
  cases hk : pyInt? (pyStrip (env.userInput s.inputCount)) with
  | none =>
    rcases h3 : account_choice_loop accounts fuel env { s with inputCount := s.inputCount + 1 }
      with ⟨r, t, s2⟩
    simp [account_choice_loop, Bind.bind, M.bind, Pure.pure, M.pure,
      readInputLine, printLine, emit, logInfo, hk, h3]
  | some k =>
    by_cases hr : 1 ≤ k ∧ k - 1 < (accounts.length : Int)
    · simp [account_choice_loop, Bind.bind, M.bind, Pure.pure, M.pure,
        readInputLine, printLine, emit, logInfo, hk, hr]
    · rcases h3 : account_choice_loop accounts fuel env { s with inputCount := s.inputCount + 1 }
        with ⟨r, t, s2⟩
      simp [account_choice_loop, Bind.bind, M.bind, Pure.pure, M.pure,
        readInputLine, printLine, emit, logInfo, hk, hr, h3]

/-- `prompt_account_selection`, run against the oracle: raises
`ValueError` when no `linkedin-sync` account exists; auto-selects (with
no prompt) when exactly one exists; otherwise enters the retry loop. -/
theorem prompt_account_selection_run (fuel : Nat) (env : Env) (s : St) :
    prompt_account_selection fuel env s =
      match env.http s.httpCount with
      | .failure e =>
        (.error (.requestException e),
          [.logMsg .info "Listing accounts...",
           .http ⟨.get, .api ["accounts"], none, []⟩,
           .logMsg .error "Failed to list accounts."],
          { s with httpCount := s.httpCount + 1 })
      | .success d =>
        if linkedinAccountsOf d = [] then
          (.error (.valueError "No LinkedIn accounts available."),
            [.logMsg .info "Listing accounts...",
             .http ⟨.get, .api ["accounts"], none, []⟩,
             .logMsg .info "Fetched accounts.",
             .logMsg .error "No LinkedIn accounts found. Please add a LinkedIn account on Lobstr.io first."],
            { s with httpCount := s.httpCount + 1 })
        else if (linkedinAccountsOf d).length = 1 then
          (.ok (((linkedinAccountsOf d).getD 0 .null).get "id"),
            [.logMsg .info "Listing accounts...",
             .http ⟨.get, .api ["accounts"], none, []⟩,
             .logMsg .info "Fetched accounts.",
             .logMsg .info "Auto-selecting only available LinkedIn account."],
            { s with httpCount := s.httpCount + 1 })
        else
          ((account_choice_loop (linkedinAccountsOf d) fuel env { s with httpCount := s.httpCount + 1 }).1,
            ([.logMsg .info "Listing accounts...",
              .http ⟨.get, .api ["accounts"], none, []⟩,
              .logMsg .info "Fetched accounts.",
              .consoleOut "--- Available Accounts ---"] ++
             ((linkedinAccountsOf d).map
               (fun acc => "ID: " ++ (acc.get "id").pyStr)).map Event.consoleOut ++
             [.consoleOut "--------------------------"]) ++
              (account_choice_loop (linkedinAccountsOf d) fuel env { s with httpCount := s.httpCount + 1 }).2.1,
            (account_choice_loop (linkedinAccountsOf d) fuel env { s with httpCount := s.httpCount + 1 }).2.2) := by
  cases h1 : env.http s.httpCount with
  | failure e =>
    simp [prompt_account_selection, get_linkedin_accounts_run, Bind.bind,
      M.bind, Pure.pure, M.pure, h1]
  | success d =>
    by_cases h2 : linkedinAccountsOf d = []
    · simp [prompt_account_selection, get_linkedin_accounts_run, Bind.bind,
        M.bind, Pure.pure, M.pure, logError, emit, M.raise, h1, h2]
    · by_cases h3 : (linkedinAccountsOf d).length = 1
      · simp [prompt_account_selection, get_linkedin_accounts_run, Bind.bind,
          M.bind, Pure.pure, M.pure, logInfo, emit, h1, h2, h3]
      · rcases h4 : account_choice_loop (linkedinAccountsOf d) fuel env
          { s with httpCount := s.httpCount + 1 } with ⟨r, t, s2⟩
        simp [prompt_account_selection, get_linkedin_accounts_run, Bind.bind,
          M.bind, Pure.pure, M.pure, logInfo, printLine, printEach, emit,
          h1, h2, h3, h4]

/-- `prompt_squid_selection`, run against the oracle.  An existing squid
is returned (with `is_new = False`) exactly on the in-range numeric
branch; every other branch creates a new squid; the chosen id is always
written to the `.squid_id` cache file. -/
theorem prompt_squid_selection_run (env : Env) (s : St) :
    prompt_squid_selection env s =
      match env.http s.httpCount with
      | .failure e =>
        (.error (.requestException e),
          [.logMsg .info "Listing squids...",
           .http ⟨.get, .api ["squids"], none, []⟩,
           .logMsg .error "Failed to list squids."],
          ⟨s.httpCount + 1, s.inputCount⟩)
      | .success d =>
        if linkedinSquidsOf d = [] then
          match env.http (s.httpCount + 1) with
          | .success b =>
            (.ok (b.get "id", true),
              [.logMsg .info "Listing squids...",
               .http ⟨.get, .api ["squids"], none, []⟩,
               .logMsg .info "Fetched squids.",
               .logMsg .info "No existing LinkedIn squids found. Creating a new one.",
               .logMsg .info "Creating new squid for crawler...",
               .http ⟨.post, .api ["squids"],
                 some (JVal.obj [("crawler", .str LINKEDIN_PROFILE_CRAWLER_ID)]), []⟩,
               .logMsg .info "Squid created successfully.",
               .fileWrite squid_cache_file .text (b.get "id")],
              ⟨s.httpCount + 1 + 1, s.inputCount⟩)
          | .failure e =>
            (.error (.requestException e),
              [.logMsg .info "Listing squids...",
               .http ⟨.get, .api ["squids"], none, []⟩,
               .logMsg .info "Fetched squids.",
               .logMsg .info "No existing LinkedIn squids found. Creating a new one.",
               .logMsg .info "Creating new squid for crawler...",
               .http ⟨.post, .api ["squids"],
                 some (JVal.obj [("crawler", .str LINKEDIN_PROFILE_CRAWLER_ID)]), []⟩,
               .logMsg .error "Failed to create squid."],
              ⟨s.httpCount + 1 + 1, s.inputCount⟩)
        else
          let pre : List Event :=
            [.logMsg .info "Listing squids...",
             .http ⟨.get, .api ["squids"], none, []⟩,
             .logMsg .info "Fetched squids.",
             .consoleOut "--- Available LinkedIn Squids ---"] ++
            ((linkedinSquidsOf d).map
              (fun squid => "ID: " ++ (squid.get "id").pyStr)).map Event.consoleOut ++
            [.consoleOut "[N] Create New Squid",
             .consoleOut "---------------------------------",
             .promptInput "Select a Squid (number) or N for new: "]
          if pyLower (pyStrip (env.userInput s.inputCount)) = "n" then
            match env.http (s.httpCount + 1) with
            | .success b =>
              (.ok (b.get "id", true),
                pre ++
                  [.logMsg .info "Creating new squid for crawler...",
                   .http ⟨.post, .api ["squids"],
                     some (JVal.obj [("crawler", .str LINKEDIN_PROFILE_CRAWLER_ID)]), []⟩,
                   .logMsg .info "Squid created successfully.",
                   .fileWrite squid_cache_file .text (b.get "id")],
                ⟨s.httpCount + 1 + 1, s.inputCount + 1⟩)
            | .failure e =>
              (.error (.requestException e),
                pre ++
                  [.logMsg .info "Creating new squid for crawler...",
                   .http ⟨.post, .api ["squids"],
                     some (JVal.obj [("crawler", .str LINKEDIN_PROFILE_CRAWLER_ID)]), []⟩,
                   .logMsg .error "Failed to create squid."],
                ⟨s.httpCount + 1 + 1, s.inputCount + 1⟩)
          else
            match pyInt? (pyLower (pyStrip (env.userInput s.inputCount))) with
            | some k =>
              if 1 ≤ k ∧ k - 1 < ((linkedinSquidsOf d).length : Int) then
                (.ok (((linkedinSquidsOf d).getD (k - 1).toNat .null).get "id", false),
                  pre ++
                    [.logMsg .info "Selected existing squid.",
                     .fileWrite squid_cache_file .text
                       (((linkedinSquidsOf d).getD (k - 1).toNat .null).get "id")],
                  ⟨s.httpCount + 1, s.inputCount + 1⟩)
              else
                match env.http (s.httpCount + 1) with
                | .success b =>
                  (.ok (b.get "id", true),
                    pre ++
                      [.consoleOut "Invalid selection. Creating new squid.",
                       .logMsg .info "Creating new squid for crawler...",
                       .http ⟨.post, .api ["squids"],
                         some (JVal.obj [("crawler", .str LINKEDIN_PROFILE_CRAWLER_ID)]), []⟩,
                       .logMsg .info "Squid created successfully.",
                       .fileWrite squid_cache_file .text (b.get "id")],
                    ⟨s.httpCount + 1 + 1, s.inputCount + 1⟩)
                | .failure e =>
                  (.error (.requestException e),
                    pre ++
                      [.consoleOut "Invalid selection. Creating new squid.",
                       .logMsg .info "Creating new squid for crawler...",
                       .http ⟨.post, .api ["squids"],
                         some (JVal.obj [("crawler", .str LINKEDIN_PROFILE_CRAWLER_ID)]), []⟩,
                       .logMsg .error "Failed to create squid."],
                    ⟨s.httpCount + 1 + 1, s.inputCount + 1⟩)
            | none =>
              match env.http (s.httpCount + 1) with
              | .success b =>
                (.ok (b.get "id", true),
                  pre ++
                    [.consoleOut "Invalid input. Creating new squid.",
                     .logMsg .info "Creating new squid for crawler...",
                     .http ⟨.post, .api ["squids"],
                       some (JVal.obj [("crawler", .str LINKEDIN_PROFILE_CRAWLER_ID)]), []⟩,
                     .logMsg .info "Squid created successfully.",
                     .fileWrite squid_cache_file .text (b.get "id")],
                  ⟨s.httpCount + 1 + 1, s.inputCount + 1⟩)
              | .failure e =>
                (.error (.requestException e),
                  pre ++
                    [.consoleOut "Invalid input. Creating new squid.",
                     .logMsg .info "Creating new squid for crawler...",
                     .http ⟨.post, .api ["squids"],
                       some (JVal.obj [("crawler", .str LINKEDIN_PROFILE_CRAWLER_ID)]), []⟩,
                     .logMsg .error "Failed to create squid."],
                  ⟨s.httpCount + 1 + 1, s.inputCount + 1⟩) := by
  obtain ⟨hc, ic⟩ := s
  cases h1 : env.http hc with
  | failure e =>
    simp [prompt_squid_selection, get_linkedin_squids_run, Bind.bind, M.bind,
      Pure.pure, M.pure, h1]
  | success d =>
    by_cases h2 : linkedinSquidsOf d = []
    · cases h3 : env.http (hc + 1) <;>
        simp [prompt_squid_selection, get_linkedin_squids_run, create_squid_run,
          cache_squid_id, Bind.bind, M.bind, Pure.pure, M.pure, logInfo,
          printLine, printEach, emit, readInputLine, h1, h2, h3]
    · by_cases h4 : pyLower (pyStrip (env.userInput ic)) = "n"
      · cases h3 : env.http (hc + 1) <;>
          simp [prompt_squid_selection, get_linkedin_squids_run, create_squid_run,
            cache_squid_id, Bind.bind, M.bind, Pure.pure, M.pure, logInfo,
            printLine, printEach, emit, readInputLine, h1, h2, h3, h4]
      · cases h5 : pyInt? (pyLower (pyStrip (env.userInput ic))) with
        | some k =>
          by_cases h6 : 1 ≤ k ∧ k - 1 < ((linkedinSquidsOf d).length : Int)
          · simp [prompt_squid_selection, get_linkedin_squids_run, create_squid_run,
              cache_squid_id, Bind.bind, M.bind, Pure.pure, M.pure, logInfo,
              printLine, printEach, emit, readInputLine, h1, h2, h4, h5, h6]
          · cases h3 : env.http (hc + 1) <;>
              simp [prompt_squid_selection, get_linkedin_squids_run, create_squid_run,
                cache_squid_id, Bind.bind, M.bind, Pure.pure, M.pure, logInfo,
                printLine, printEach, emit, readInputLine, h1, h2, h3, h4, h5, h6]
        | none =>
          cases h3 : env.http (hc + 1) <;>
            simp [prompt_squid_selection, get_linkedin_squids_run, create_squid_run,
              cache_squid_id, Bind.bind, M.bind, Pure.pure, M.pure, logInfo,
              printLine, printEach, emit, readInputLine, h1, h2, h3, h4, h5]

/-! ## Trace shape of the polling loop -/

/-- The exact events of a completed polling loop that saw `k` not-done
stats responses before the final done one: `DEFAULT_POLL_INTERVAL`
sleeps stand strictly between successive stats requests. -/
def pollEvts (run_hash : JVal) : Nat → List Event
  | 0 =>
    [.http ⟨.get, .api ["runs", run_hash.pyStr, "stats"], none, []⟩,
     .logMsg .info "Progress...",
     .logMsg .info "Run completed."]
  | k + 1 =>
    [.http ⟨.get, .api ["runs", run_hash.pyStr, "stats"], none, []⟩,
     .logMsg .info "Progress...",
     .sleep DEFAULT_POLL_INTERVAL] ++ pollEvts run_hash k

/-- A polling loop that returns did so on an `is_done` response: the
result is the polled run id, some `k` earlier responses were all
not-done, response `k` was done, and the trace is exactly `pollEvts`
(one sleep between successive polls, none after the last). -/
theorem poll_loop_done (run_hash : JVal) (fuel : Nat) :
    ∀ (env : Env) (s : St) (rh : JVal) (tr : List Event) (s2 : St),
    poll_loop run_hash fuel env s = (.ok rh, tr, s2) →
    rh = run_hash ∧
    ∃ k : Nat,
      (∀ i < k, ∃ bi, env.http (s.httpCount + i) = .success bi ∧
        (bi.get "is_done").truthy = false) ∧
      (∃ bk, env.http (s.httpCount + k) = .success bk ∧
        (bk.get "is_done").truthy = true) ∧
      tr = pollEvts run_hash k := by
  induction fuel with
  | zero =>
    intro env s rh tr s2 h
    simp [poll_loop_zero] at h
  | succ fuel ih =>
    intro env s rh tr s2 h
    rw [poll_loop_succ] at h
    cases h1 : env.http s.httpCount with
    | failure e => rw [h1] at h; simp at h
    | success stats =>
      rw [h1] at h
      by_cases h2 : (stats.get "is_done").truthy
      · simp [h2] at h
        obtain ⟨hrh, htr, _⟩ := h
        refine ⟨hrh.symm, 0, by omega, ⟨stats, by simpa using h1, h2⟩, ?_⟩
        simp [pollEvts, htr.symm]
      · simp [h2] at h
        rcases hrec : poll_loop run_hash fuel env { s with httpCount := s.httpCount + 1 }
          with ⟨r, t, sr⟩
        rw [hrec] at h
        obtain ⟨hr, htr, _⟩ := h
        cases r with
        | error e => exact absurd hr (by simp)
        | ok rh0 =>
          have hok : rh0 = rh := by simpa using hr
          obtain ⟨hrh, k, hnot, hdone, htr'⟩ := ih env _ rh0 t sr hrec
          refine ⟨by rw [← hok]; exact hrh, k + 1, ?_, ?_, ?_⟩
          · intro i hi
            cases i with
            | zero => exact ⟨stats, by simpa using h1, by simpa using h2⟩
            | succ j =>
              obtain ⟨bj, hbj, hbj2⟩ := hnot j (by omega)
              exact ⟨bj, by simpa [Nat.add_assoc, Nat.add_comm, Nat.add_left_comm] using hbj, hbj2⟩
          · obtain ⟨bk, hbk, hbk2⟩ := hdone
            exact ⟨bk, by simpa [Nat.add_assoc, Nat.add_comm, Nat.add_left_comm] using hbk, hbk2⟩
          · simp [pollEvts, ← htr, htr']

/-! ## Projection lemmas: observable steps of each operation -/

theorem stepsOf_append (t1 t2 : List Event) :
    stepsOf (t1 ++ t2) = stepsOf t1 ++ stepsOf t2 := by
  simp [stepsOf]


theorem stepOf_logMsg (lvl : LogLevel) (m : String) :
    stepOf (.logMsg lvl m) = none := rfl

theorem stepOf_consoleOut (m : String) : stepOf (.consoleOut m) = none := rfl

theorem stepOf_promptInput (m : String) : stepOf (.promptInput m) = none := rfl

theorem stepOf_sleep (n : Nat) : stepOf (.sleep n) = none := rfl

theorem stepOf_fileRead (p : String) : stepOf (.fileRead p) = some .readUrls := rfl

theorem stepOf_fileWrite_json (p : String) (c : JVal) :
    stepOf (.fileWrite p .jsonDump c) = some .writeJson := rfl

theorem stepOf_fileWrite_binary (p : String) (c : JVal) :
    stepOf (.fileWrite p .binary c) = some .writeCsv := rfl

theorem stepOf_fileWrite_text (p : String) (c : JVal) :
    stepOf (.fileWrite p .text c) = some .writeCache := rfl

theorem stepOf_listSquids (b : Option JVal) (pr : List (String × String)) :
    stepOf (.http ⟨.get, .api ["squids"], b, pr⟩) = some .listSquids := rfl

theorem stepOf_createSquid (b : Option JVal) (pr : List (String × String)) :
    stepOf (.http ⟨.post, .api ["squids"], b, pr⟩) = some .createSquid := rfl

theorem stepOf_listAccounts (b : Option JVal) (pr : List (String × String)) :
    stepOf (.http ⟨.get, .api ["accounts"], b, pr⟩) = some .listAccounts := rfl

theorem stepOf_updateSquid (x : String) (b : Option JVal) (pr : List (String × String)) :
    stepOf (.http ⟨.post, .api ["squids", x], b, pr⟩) = some .updateSquid := rfl

theorem stepOf_emptySquid (x : String) (b : Option JVal) (pr : List (String × String)) :
    stepOf (.http ⟨.post, .api ["squids", x, "empty"], b, pr⟩) = some .emptySquid := rfl

theorem stepOf_addTasks (b : Option JVal) (pr : List (String × String)) :
    stepOf (.http ⟨.post, .api ["tasks"], b, pr⟩) = some .addTasks := rfl

theorem stepOf_startRun (b : Option JVal) (pr : List (String × String)) :
    stepOf (.http ⟨.post, .api ["runs"], b, pr⟩) = some .startRun := rfl

theorem stepOf_pollStats (x : String) (b : Option JVal) (pr : List (String × String)) :
    stepOf (.http ⟨.get, .api ["runs", x, "stats"], b, pr⟩) = some .pollStats := rfl

theorem stepOf_fetchResults (b : Option JVal) (pr : List (String × String)) :
    stepOf (.http ⟨.get, .api ["results"], b, pr⟩) = some .fetchResults := rfl

theorem stepOf_downloadReq (x : String) (b : Option JVal) (pr : List (String × String)) :
    stepOf (.http ⟨.get, .api ["runs", x, "download"], b, pr⟩) = some .downloadReq := rfl

theorem stepOf_s3Get (u : String) (b : Option JVal) (pr : List (String × String)) :
    stepOf (.http ⟨.get, .external u, b, pr⟩) = some .s3Get := rfl

theorem stepsOf_nil : stepsOf [] = [] := rfl

theorem stepsOf_consoleOuts (msgs : List String) :
    stepsOf (msgs.map Event.consoleOut) = [] := by
  induction msgs with
  | nil => rfl
  | cons m ms ih => simp [stepsOf, List.filterMap_cons, stepOf_consoleOut, ih]

theorem stepsOf_pollEvts (run_hash : JVal) (k : Nat) :
    stepsOf (pollEvts run_hash k) = List.replicate (k + 1) .pollStats := by
  induction k with
  | zero =>
    simp [pollEvts, stepsOf, List.filterMap_cons, stepOf_pollStats, stepOf_logMsg]
  | succ k ih =>
    simp only [pollEvts, stepsOf, List.filterMap_append, List.filterMap_cons,
      stepOf_pollStats, stepOf_logMsg, stepOf_sleep] at ih ⊢
    simp [ih, List.replicate_succ]
/-- Steps of a successful squid selection: the listing, a creation
exactly when the squid is new, then the cache write. -/
theorem prompt_squid_selection_steps (env : Env) (s : St) (sq : JVal)
    (is_new : Bool) (tr : List Event) (s2 : St)
    (h : prompt_squid_selection env s = (.ok (sq, is_new), tr, s2)) :
    stepsOf tr =
      [.listSquids] ++ (if is_new then [.createSquid] else []) ++ [.writeCache] := by
  cases h1 : env.http s.httpCount with
  | failure e => simp [prompt_squid_selection_run, h1] at h
  | success d =>
    by_cases h2 : linkedinSquidsOf d = []
    · cases h3 : env.http (s.httpCount + 1) with
      | failure e => simp [prompt_squid_selection_run, h1, h2, h3] at h
      | success b =>
        simp [prompt_squid_selection_run, h1, h2, h3] at h
        obtain ⟨⟨-, hnew⟩, htr, -⟩ := h
        subst hnew; subst htr
        simp [stepsOf, List.filterMap_cons, stepOf_listSquids, stepOf_logMsg,
          stepOf_createSquid, stepOf_fileWrite_text]
    · by_cases h4 : pyLower (pyStrip (env.userInput s.inputCount)) = "n"
      · cases h3 : env.http (s.httpCount + 1) with
        | failure e => simp [prompt_squid_selection_run, h1, h2, h3, h4] at h
        | success b =>
          simp [prompt_squid_selection_run, h1, h2, h3, h4] at h
          obtain ⟨⟨-, hnew⟩, htr, -⟩ := h
          subst hnew; subst htr
          simp [stepsOf, List.filterMap_cons, List.filterMap_append,
            stepOf_listSquids, stepOf_logMsg, stepOf_consoleOut,
            stepOf_promptInput, stepsOf_consoleOuts, stepOf_createSquid,
            stepOf_fileWrite_text]
      · cases h5 : pyInt? (pyLower (pyStrip (env.userInput s.inputCount))) with
        | some k =>
          by_cases h6 : 1 ≤ k ∧ k - 1 < ((linkedinSquidsOf d).length : Int)
          · simp [prompt_squid_selection_run, h1, h2, h4, h5, h6] at h
            obtain ⟨⟨-, hnew⟩, htr, -⟩ := h
            subst hnew; subst htr
            simp [stepsOf, List.filterMap_cons, List.filterMap_append,
              stepOf_listSquids, stepOf_logMsg, stepOf_consoleOut,
              stepOf_promptInput, stepsOf_consoleOuts, stepOf_fileWrite_text]
          · cases h3 : env.http (s.httpCount + 1) with
            | failure e => simp [prompt_squid_selection_run, h1, h2, h3, h4, h5, h6] at h
            | success b =>
              simp [prompt_squid_selection_run, h1, h2, h3, h4, h5, h6] at h
              obtain ⟨⟨-, hnew⟩, htr, -⟩ := h
              subst hnew; subst htr
              simp [stepsOf, List.filterMap_cons, List.filterMap_append,
                stepOf_listSquids, stepOf_logMsg, stepOf_consoleOut,
                stepOf_promptInput, stepsOf_consoleOuts, stepOf_createSquid,
                stepOf_fileWrite_text]
        | none =>
          cases h3 : env.http (s.httpCount + 1) with
          | failure e => simp [prompt_squid_selection_run, h1, h2, h3, h4, h5] at h
          | success b =>
            simp [prompt_squid_selection_run, h1, h2, h3, h4, h5] at h
            obtain ⟨⟨-, hnew⟩, htr, -⟩ := h
            subst hnew; subst htr
            simp [stepsOf, List.filterMap_cons, List.filterMap_append,
              stepOf_listSquids, stepOf_logMsg, stepOf_consoleOut,
              stepOf_promptInput, stepsOf_consoleOuts, stepOf_createSquid,
              stepOf_fileWrite_text]

/-- The account retry loop emits no observable step. -/
theorem account_choice_loop_steps (accounts : List JVal) (fuel : Nat) :
    ∀ (env : Env) (s : St) (acc : JVal) (tr : List Event) (s2 : St),
    account_choice_loop accounts fuel env s = (.ok acc, tr, s2) →
    stepsOf tr = [] := by
  induction fuel with
  | zero =>
    intro env s acc tr s2 h
    simp [account_choice_loop_zero] at h
  | succ fuel ih =>
    intro env s acc tr s2 h
    cases h5 : pyInt? (pyStrip (env.userInput s.inputCount)) with
    | some k =>
      by_cases h6 : 1 ≤ k ∧ k - 1 < (accounts.length : Int)
      · simp [account_choice_loop_succ, h5, h6] at h
        obtain ⟨-, htr, -⟩ := h
        subst htr
        simp [stepsOf, List.filterMap_cons, stepOf_promptInput, stepOf_logMsg]
      · rcases hrec : account_choice_loop accounts fuel env
          { s with inputCount := s.inputCount + 1 } with ⟨r, t, sr⟩
        cases r with
        | error e => simp [account_choice_loop_succ, h5, h6, hrec] at h
        | ok acc0 =>
          simp [account_choice_loop_succ, h5, h6, hrec] at h
          obtain ⟨-, htr, -⟩ := h
          have := ih env _ acc0 t sr hrec
          simp only [stepsOf] at this
          subst htr
          simp [stepsOf, List.filterMap_cons, stepOf_promptInput,
            stepOf_consoleOut, this]
    | none =>
      rcases hrec : account_choice_loop accounts fuel env
        { s with inputCount := s.inputCount + 1 } with ⟨r, t, sr⟩
      cases r with
      | error e => simp [account_choice_loop_succ, h5, hrec] at h
      | ok acc0 =>
        simp [account_choice_loop_succ, h5, hrec] at h
        obtain ⟨-, htr, -⟩ := h
        have := ih env _ acc0 t sr hrec
        simp only [stepsOf] at this
        subst htr
        simp [stepsOf, List.filterMap_cons, stepOf_promptInput,
          stepOf_consoleOut, this]

/-- Steps of a successful account selection: just the account listing. -/
theorem prompt_account_selection_steps (fuel : Nat) (env : Env) (s : St)
    (acc : JVal) (tr : List Event) (s2 : St)
    (h : prompt_account_selection fuel env s = (.ok acc, tr, s2)) :
    stepsOf tr = [.listAccounts] := by
  cases h1 : env.http s.httpCount with
  | failure e => simp [prompt_account_selection_run, h1] at h
  | success d =>
    by_cases h2 : linkedinAccountsOf d = []
    · simp [prompt_account_selection_run, h1, h2] at h
    · by_cases h3 : (linkedinAccountsOf d).length = 1
      · simp [prompt_account_selection_run, h1, h2, h3] at h
        obtain ⟨-, htr, -⟩ := h
        subst htr
        simp [stepsOf, List.filterMap_cons, stepOf_listAccounts, stepOf_logMsg]
      · rcases hrec : account_choice_loop (linkedinAccountsOf d) fuel env
          { s with httpCount := s.httpCount + 1 } with ⟨r, t, sr⟩
        simp [prompt_account_selection_run, h1, h2, h3, hrec] at h
        cases r with
        | error e => simp at h
        | ok acc0 =>
          obtain ⟨-, htr, -⟩ := by simpa using h
          have hloop := account_choice_loop_steps (linkedinAccountsOf d) fuel env
            _ acc0 t sr hrec
          simp only [stepsOf] at hloop
          subst htr
          simp [stepsOf, List.filterMap_cons, List.filterMap_append,
            stepOf_listAccounts, stepOf_logMsg, stepOf_consoleOut,
            stepsOf_consoleOuts, hloop]

/-- Steps of a successful squid update. -/
theorem update_squid_steps (squid_hash account_id : JVal) (enrich_email : Bool)
    (env : Env) (s : St) (tr : List Event) (s2 : St)
    (h : update_squid squid_hash account_id enrich_email env s = (.ok (), tr, s2)) :
    stepsOf tr = [.updateSquid] := by
  cases h1 : env.http s.httpCount with
  | failure e => simp [update_squid_run, h1] at h
  | success b =>
    simp [update_squid_run, h1] at h
    obtain ⟨htr, -⟩ := h
    subst htr
    simp [stepsOf, List.filterMap_cons, stepOf_updateSquid, stepOf_logMsg]

/-- Steps of a completed empty-squid prompt: the empty request exactly
when the user confirmed. -/
theorem prompt_empty_squid_steps (squid_hash : JVal) (env : Env) (s : St)
    (tr : List Event) (s2 : St)
    (h : prompt_empty_squid squid_hash env s = (.ok (), tr, s2)) :
    ∃ b : Bool, stepsOf tr = if b then [.emptySquid] else [] := by
  by_cases hy : pyLower (env.userInput s.inputCount) = "y"
  · cases h1 : env.http s.httpCount with
    | failure e => simp [prompt_empty_squid_run, hy, h1] at h
    | success b =>
      simp [prompt_empty_squid_run, hy, h1] at h
      obtain ⟨htr, -⟩ := h
      subst htr
      exact ⟨true, by simp [stepsOf, List.filterMap_cons, stepOf_promptInput,
        stepOf_emptySquid, stepOf_logMsg]⟩
  · simp [prompt_empty_squid_run, hy] at h
    obtain ⟨htr, -⟩ := h
    subst htr
    exact ⟨false, by simp [stepsOf, List.filterMap_cons, stepOf_promptInput]⟩

/-- Steps of a successful `add_tasks` that submitted at least one URL:
the URL-list read in file mode, then the task POST. -/
theorem add_tasks_steps (squid_hash : JVal) (input_source : String)
    (is_file : Bool) (env : Env) (s : St) (n : Nat) (tr : List Event) (s2 : St)
    (h : add_tasks squid_hash input_source is_file env s = (.ok n, tr, s2))
    (hn : n ≠ 0) :
    stepsOf tr = (if is_file then [.readUrls] else []) ++ [.addTasks] := by
  cases is_file with
  | true =>
    cases hf : env.files (ospathjoin SCRIPT_DIR input_source) with
    | none => simp [add_tasks_file_missing _ _ _ _ hf] at h
    | some ls =>
      rw [add_tasks_file_run _ _ _ _ _ hf] at h
      by_cases hu : stripNonBlank ls = []
      · rw [if_pos hu] at h
        obtain ⟨hn0, -, -⟩ := by simpa using h
        exact absurd hn0.symm hn
      · rw [if_neg hu] at h
        cases h1 : env.http s.httpCount with
        | failure e => rw [h1] at h; simp at h
        | success b =>
          rw [h1] at h
          obtain ⟨-, htr, -⟩ := by simpa using h
          simp [← htr, stepsOf, List.filterMap_cons, stepOf_fileRead,
            stepOf_addTasks, stepOf_logMsg]
  | false =>
    rw [add_tasks_single_run] at h
    by_cases hu : pyStrip input_source = ""
    · rw [if_pos hu] at h
      obtain ⟨hn0, -, -⟩ := by simpa using h
      exact absurd hn0.symm hn
    · rw [if_neg hu] at h
      cases h1 : env.http s.httpCount with
      | failure e => rw [h1] at h; simp at h
      | success b =>
        rw [h1] at h
        obtain ⟨-, htr, -⟩ := by simpa using h
        simp [← htr, stepsOf, List.filterMap_cons, stepOf_addTasks, stepOf_logMsg]

/-- Steps of a successful `run_and_poll`: the start request, then one
stats poll per loop iteration (at least one). -/
theorem run_and_poll_steps (squid_hash : JVal) (fuel : Nat) (env : Env)
    (s : St) (rh : JVal) (tr : List Event) (s2 : St)
    (h : run_and_poll squid_hash fuel env s = (.ok rh, tr, s2)) :
    ∃ k : Nat, stepsOf tr = .startRun :: List.replicate (k + 1) .pollStats := by
  cases h1 : env.http s.httpCount with
  | failure e => simp [run_and_poll_run, h1] at h
  | success b =>
    rcases hrec : poll_loop (b.get "id") fuel env { s with httpCount := s.httpCount + 1 }
      with ⟨r, t, sr⟩
    cases r with
    | error e => cases e <;> simp [run_and_poll_run, h1, hrec] at h
    | ok rh0 =>
      simp [run_and_poll_run, h1, hrec] at h
      obtain ⟨-, htr, -⟩ := h
      obtain ⟨-, k, -, -, ht⟩ := poll_loop_done (b.get "id") fuel env _ rh0 t sr hrec
      refine ⟨k, ?_⟩
      have hpe := stepsOf_pollEvts (b.get "id") k
      simp only [stepsOf] at hpe
      subst ht
      subst htr
      simp [stepsOf, List.filterMap_cons, List.filterMap_append,
        stepOf_startRun, stepOf_logMsg, hpe]

/-- Steps of a successful `fetch_results`. -/
theorem fetch_results_steps (run_hash : JVal) (env : Env) (s : St)
    (d : JVal) (tr : List Event) (s2 : St)
    (h : fetch_results run_hash env s = (.ok d, tr, s2)) :
    stepsOf tr = [.fetchResults] := by
  cases h1 : env.http s.httpCount with
  | failure e => simp [fetch_results_run, h1] at h
  | success b =>
    simp [fetch_results_run, h1] at h
    obtain ⟨-, htr, -⟩ := h
    subst htr
    simp [stepsOf, List.filterMap_cons, stepOf_fetchResults, stepOf_logMsg]

/-- Steps of `save_to_json` with the default filename. -/
theorem save_to_json_steps (data : JVal) (env : Env) (s : St)
    (tr : List Event) (s2 : St)
    (h : save_to_json data none env s = (.ok (), tr, s2)) :
    stepsOf tr = [.writeJson] := by
  rw [save_to_json_run] at h
  obtain ⟨htr, -⟩ := by simpa using h
  simp [← htr, stepsOf, List.filterMap_cons, stepOf_fileWrite_json, stepOf_logMsg]

/-- Steps of a successful `download_csv`: the download request, then —
exactly when a truthy S3 URL came back — the S3 fetch and the CSV
write. -/
theorem download_csv_steps (run_hash : JVal) (env : Env) (s : St)
    (tr : List Event) (s2 : St)
    (h : download_csv run_hash none env s = (.ok (), tr, s2)) :
    ∃ b : Bool, stepsOf tr = .downloadReq :: (if b then [.s3Get, .writeCsv] else []) := by
  cases h1 : env.http s.httpCount with
  | failure e => simp [download_csv_run, h1] at h
  | success b =>
    by_cases h2 : (b.get "s3").truthy
    · cases h3 : env.http (s.httpCount + 1) with
      | failure e => simp [download_csv_run, h1, h2, h3] at h
      | success content =>
        simp [download_csv_run, h1, h2, h3] at h
        obtain ⟨htr, -⟩ := h
        subst htr
        exact ⟨true, by simp [stepsOf, List.filterMap_cons, stepOf_downloadReq,
          stepOf_s3Get, stepOf_fileWrite_binary, stepOf_sleep, stepOf_logMsg]⟩
    · simp [download_csv_run, h1, h2] at h
      obtain ⟨htr, -⟩ := h
      subst htr
      exact ⟨false, by simp [stepsOf, List.filterMap_cons, stepOf_downloadReq,
        stepOf_logMsg]⟩

/-- Full decomposition of a completed `scrape_steps` run: squid
selection (with creation exactly for a new squid), account selection,
squid update, optional emptying (only when reusing), URL-file read (in
file mode) and task submission, run start with at least one stats poll,
results fetch, JSON write, and the CSV download.  The booleans witness
the optional parts, `k` counts the extra polls. -/
theorem scrape_steps_finished_steps (input_source : String)
    (is_file enrich_email : Bool) (fuel : Nat) (env : Env) (s0 : St)
    (tr : List Event) (sF : St)
    (h : scrape_steps input_source is_file enrich_email fuel env s0 =
      (.ok .finished, tr, sF)) :
    ∃ (madeNew confirmedEmpty gotCsv : Bool) (k : Nat),
      (madeNew = true → confirmedEmpty = false) ∧
      stepsOf tr =
        [.listSquids] ++ (if madeNew then [.createSquid] else []) ++
        [.writeCache, .listAccounts, .updateSquid] ++
        (if confirmedEmpty then [.emptySquid] else []) ++
        (if is_file then [.readUrls] else []) ++ [.addTasks] ++
        (.startRun :: List.replicate (k + 1) .pollStats) ++
        [.fetchResults, .writeJson] ++
        (.downloadReq :: (if gotCsv then [.s3Get, .writeCsv] else [])) := by
  rcases h1 : prompt_squid_selection env s0 with ⟨r1, t1, s1⟩
  cases r1 with
  | error e => simp [scrape_steps, Bind.bind, M.bind, h1] at h
  | ok v1 =>
  obtain ⟨sqid, is_new⟩ := v1
  rcases h2 : prompt_account_selection fuel env s1 with ⟨r2, t2, s2⟩
  cases r2 with
  | error e => simp [scrape_steps, Bind.bind, M.bind, h1, h2] at h
  | ok acc =>
  rcases h3 : update_squid sqid acc enrich_email env s2 with ⟨r3, t3, s3⟩
  cases r3 with
  | error e => simp [scrape_steps, Bind.bind, M.bind, h1, h2, h3] at h
  | ok u3 =>
  have hp1 := prompt_squid_selection_steps env s0 sqid is_new t1 s1 h1
  have hp2 := prompt_account_selection_steps fuel env s1 acc t2 s2 h2
  have hp3 := update_squid_steps sqid acc enrich_email env s2 t3 s3 h3
  cases is_new with
  | true =>
    rcases h5 : add_tasks sqid input_source is_file env s3 with ⟨r5, t5, s5⟩
    cases r5 with
    | error e => simp [scrape_steps, Bind.bind, M.bind, Pure.pure, M.pure, h1, h2, h3, h5] at h
    | ok n =>
    by_cases hn : n = 0
    · simp [scrape_steps, Bind.bind, M.bind, Pure.pure, M.pure, logInfo, emit,
        h1, h2, h3, h5, hn] at h
    · rcases h6 : run_and_poll sqid fuel env s5 with ⟨r6, t6, s6⟩
      cases r6 with
      | error e => simp [scrape_steps, Bind.bind, M.bind, Pure.pure, M.pure, h1, h2, h3, h5, hn, h6] at h
      | ok rh =>
      rcases h7 : fetch_results rh env s6 with ⟨r7, t7, s7⟩
      cases r7 with
      | error e => simp [scrape_steps, Bind.bind, M.bind, Pure.pure, M.pure, h1, h2, h3, h5, hn, h6, h7] at h
      | ok dta =>
      rcases h9 : download_csv rh none env s7 with ⟨r9, t9, s9⟩
      cases r9 with
      | error e =>
        simp [scrape_steps, Bind.bind, M.bind, Pure.pure, M.pure,
          save_to_json_run, h1, h2, h3, h5, hn, h6, h7, h9] at h
      | ok u9 =>
      have hp5 := add_tasks_steps sqid input_source is_file env s3 n t5 s5 h5 hn
      obtain ⟨k, hp6⟩ := run_and_poll_steps sqid fuel env s5 rh t6 s6 h6
      have hp7 := fetch_results_steps rh env s6 dta t7 s7 h7
      obtain ⟨bC, hp9⟩ := download_csv_steps rh env s7 t9 s9 h9
      simp [scrape_steps, Bind.bind, M.bind, Pure.pure, M.pure,
        save_to_json_run, h1, h2, h3, h5, hn, h6, h7, h9] at h
      obtain ⟨htr, -⟩ := h
      refine ⟨true, false, bC, k, fun _ => rfl, ?_⟩
      simp only [stepsOf] at hp1 hp2 hp3 hp5 hp6 hp7 hp9 ⊢
      subst htr
      simp [List.filterMap_append, List.filterMap_cons, hp1, hp2, hp3, hp5,
        hp6, hp7, hp9, stepOf_fileWrite_json, stepOf_logMsg]
  | false =>
    rcases h4 : prompt_empty_squid sqid env s3 with ⟨r4, t4, s4⟩
    cases r4 with
    | error e => simp [scrape_steps, Bind.bind, M.bind, Pure.pure, M.pure, h1, h2, h3, h4] at h
    | ok u4 =>
    rcases h5 : add_tasks sqid input_source is_file env s4 with ⟨r5, t5, s5⟩
    cases r5 with
    | error e => simp [scrape_steps, Bind.bind, M.bind, Pure.pure, M.pure, h1, h2, h3, h4, h5] at h
    | ok n =>
    by_cases hn : n = 0
    · simp [scrape_steps, Bind.bind, M.bind, Pure.pure, M.pure, logInfo, emit,
        h1, h2, h3, h4, h5, hn] at h
    · rcases h6 : run_and_poll sqid fuel env s5 with ⟨r6, t6, s6⟩
      cases r6 with
      | error e => simp [scrape_steps, Bind.bind, M.bind, Pure.pure, M.pure, h1, h2, h3, h4, h5, hn, h6] at h
      | ok rh =>
      rcases h7 : fetch_results rh env s6 with ⟨r7, t7, s7⟩
      cases r7 with
      | error e => simp [scrape_steps, Bind.bind, M.bind, Pure.pure, M.pure, h1, h2, h3, h4, h5, hn, h6, h7] at h
      | ok dta =>
      rcases h9 : download_csv rh none env s7 with ⟨r9, t9, s9⟩
      cases r9 with
      | error e =>
        simp [scrape_steps, Bind.bind, M.bind, Pure.pure, M.pure,
          save_to_json_run, h1, h2, h3, h4, h5, hn, h6, h7, h9] at h
      | ok u9 =>
      obtain ⟨bE, hp4⟩ := prompt_empty_squid_steps sqid env s3 t4 s4 h4
      have hp5 := add_tasks_steps sqid input_source is_file env s4 n t5 s5 h5 hn
      obtain ⟨k, hp6⟩ := run_and_poll_steps sqid fuel env s5 rh t6 s6 h6
      have hp7 := fetch_results_steps rh env s6 dta t7 s7 h7
      obtain ⟨bC, hp9⟩ := download_csv_steps rh env s7 t9 s9 h9
      simp [scrape_steps, Bind.bind, M.bind, Pure.pure, M.pure,
        save_to_json_run, h1, h2, h3, h4, h5, hn, h6, h7, h9] at h
      obtain ⟨htr, -⟩ := h
      refine ⟨false, bE, bC, k, by simp, ?_⟩
      simp only [stepsOf] at hp1 hp2 hp3 hp4 hp5 hp6 hp7 hp9 ⊢
      subst htr
      cases bE <;>
        simp [List.filterMap_append, List.filterMap_cons, hp1, hp2, hp3, hp4,
          hp5, hp6, hp7, hp9, stepOf_fileWrite_json, stepOf_logMsg]

/-! ## Helper facts used by the claim theorems -/

/-- The comprehension `[line.strip() for line in f if line.strip()]`
equals "strip every line, then drop the blank ones". -/
theorem stripNonBlank_eq_filter (ls : List String) :
    stripNonBlank ls = (ls.map pyStrip).filter (fun u => u ≠ "") := by
  induction ls with
  | nil => rfl
  | cons l ls ih =>
    by_cases hl : pyStrip l = "" <;>
      simp [stripNonBlank, List.filterMap_cons, hl, ih] <;>
      simp [stripNonBlank] at ih <;> exact ih

theorem stripNonBlank_nil_of_blank (ls : List String)
    (h : ∀ l ∈ ls, pyStrip l = "") : stripNonBlank ls = [] := by
  simp [stripNonBlank_eq_filter, List.filter_eq_nil_iff]
  intro u hu
  exact h u hu

/-- Elements of the `linkedin-sync` filter really have that type. -/
theorem mem_linkedinAccountsOf (a d : JVal) (h : a ∈ linkedinAccountsOf d) :
    a.get "type" = JVal.str "linkedin-sync" := by
  have := (List.mem_filter.mp h).2
  have hb : JVal.beq (a.get "type") (JVal.str "linkedin-sync") = true := this
  exact (JVal.beq_iff _ _).mp hb

/-- A successful account retry loop returns the id of one of the listed
accounts. -/
theorem account_choice_loop_ok_mem (accounts : List JVal) (fuel : Nat) :
    ∀ (env : Env) (s : St) (acc : JVal) (tr : List Event) (s2 : St),
    account_choice_loop accounts fuel env s = (.ok acc, tr, s2) →
    ∃ a ∈ accounts, acc = a.get "id" := by
  induction fuel with
  | zero =>
    intro env s acc tr s2 h
    simp [account_choice_loop_zero] at h
  | succ fuel ih =>
    intro env s acc tr s2 h
    cases h5 : pyInt? (pyStrip (env.userInput s.inputCount)) with
    | some k =>
      by_cases h6 : 1 ≤ k ∧ k - 1 < (accounts.length : Int)
      · simp [account_choice_loop_succ, h5, h6] at h
        obtain ⟨hacc, -, -⟩ := h
        have hlt : k.toNat - 1 < accounts.length := by omega
        refine ⟨accounts[k.toNat - 1], List.getElem_mem hlt, ?_⟩
        rw [← hacc]
        simp [List.getElem?_eq_getElem hlt]
      · rcases hrec : account_choice_loop accounts fuel env
          { s with inputCount := s.inputCount + 1 } with ⟨r, t, sr⟩
        cases r with
        | error e => simp [account_choice_loop_succ, h5, h6, hrec] at h
        | ok acc0 =>
          simp [account_choice_loop_succ, h5, h6, hrec] at h
          obtain ⟨hacc, -, -⟩ := h
          obtain ⟨a, ha, he⟩ := ih env _ acc0 t sr hrec
          exact ⟨a, ha, hacc ▸ he⟩
    | none =>
      rcases hrec : account_choice_loop accounts fuel env
        { s with inputCount := s.inputCount + 1 } with ⟨r, t, sr⟩
      cases r with
      | error e => simp [account_choice_loop_succ, h5, hrec] at h
      | ok acc0 =>
        simp [account_choice_loop_succ, h5, hrec] at h
        obtain ⟨hacc, -, -⟩ := h
        obtain ⟨a, ha, he⟩ := ih env _ acc0 t sr hrec
        exact ⟨a, ha, hacc ▸ he⟩

/-! ## Claim theorems -/

/-- C6: attaching an account sends a squid update whose payload has
exactly the single selected account id in its `accounts` list (every
HTTP request `update_squid` makes carries that payload, and one such
request is always made), and the account selected by
`prompt_account_selection` is always the id of an account drawn from
the `linkedin-sync` filter. -/
theorem claim_C6_update_payload_single_account :
    (∀ (squid_hash account_id : JVal) (enrich_email : Bool) (env : Env) (s : St),
      Event.http ⟨.post, .api ["squids", squid_hash.pyStr],
        some (JVal.obj
          [("accounts", .arr [account_id]),
           ("no_line_breaks", .bool true),
           ("params", .obj [("functions", .obj [("email", .bool enrich_email)])])]), []⟩ ∈
        (update_squid squid_hash account_id enrich_email env s).2.1 ∧
      ∀ req : HttpReq,
        Event.http req ∈ (update_squid squid_hash account_id enrich_email env s).2.1 →
        req.body = some (JVal.obj
          [("accounts", .arr [account_id]),
           ("no_line_breaks", .bool true),
           ("params", .obj [("functions", .obj [("email", .bool enrich_email)])])])) ∧
    (∀ (fuel : Nat) (env : Env) (s : St) (d acc : JVal) (tr : List Event) (s2 : St),
      env.http s.httpCount = .success d →
      prompt_account_selection fuel env s = (.ok acc, tr, s2) →
      ∃ a ∈ linkedinAccountsOf d,
        acc = a.get "id" ∧ a.get "type" = JVal.str "linkedin-sync") := by
  constructor
  · intro squid_hash account_id enrich_email env s
    cases h1 : env.http s.httpCount <;>
      constructor <;>
      simp [update_squid_run, h1]
  · intro fuel env s d acc tr s2 h1 h
    by_cases h2 : linkedinAccountsOf d = []
    · simp [prompt_account_selection_run, h1, h2] at h
    · by_cases h3 : (linkedinAccountsOf d).length = 1
      · simp [prompt_account_selection_run, h1, h2, h3] at h
        obtain ⟨a, ha⟩ := List.length_eq_one.mp h3
        obtain ⟨hacc, -, -⟩ := h
        refine ⟨a, by simp [ha], ?_, mem_linkedinAccountsOf a d (by simp [ha])⟩
        simp [ha] at hacc
        exact hacc.symm
      · rcases hrec : account_choice_loop (linkedinAccountsOf d) fuel env
          { s with httpCount := s.httpCount + 1 } with ⟨r, t, sr⟩
        cases r with
        | error e => simp [prompt_account_selection_run, h1, h2, h3, hrec] at h
        | ok acc0 =>
          simp [prompt_account_selection_run, h1, h2, h3, hrec] at h
          obtain ⟨hacc, -, -⟩ := h
          obtain ⟨a, ha, he⟩ := account_choice_loop_ok_mem (linkedinAccountsOf d)
            fuel env _ acc0 t sr hrec
          exact ⟨a, ha, hacc ▸ he, mem_linkedinAccountsOf a d ha⟩

/-- C7: with a file input `add_tasks` submits exactly one task per line
of the URL list after stripping whitespace and skipping blank lines
(the posted payload is `tasksPayload` of exactly those stripped lines)
and returns their number; with a single-URL input it submits exactly
that one URL, stripped, and returns 1. -/
theorem claim_C7_add_tasks_one_task_per_line :
    (∀ (squid_hash : JVal) (input_source : String) (env : Env) (s : St)
      (ls : List String) (b : JVal),
      env.files (ospathjoin SCRIPT_DIR input_source) = some ls →
      env.http s.httpCount = .success b →
      (ls.map pyStrip).filter (fun u => u ≠ "") ≠ [] →
      add_tasks squid_hash input_source true env s =
        (.ok ((ls.map pyStrip).filter (fun u => u ≠ "")).length,
          [.fileRead (ospathjoin SCRIPT_DIR input_source),
           .logMsg .info "Adding tasks to squid...",
           .http ⟨.post, .api ["tasks"],
             some (tasksPayload ((ls.map pyStrip).filter (fun u => u ≠ "")) squid_hash), []⟩,
           .logMsg .info "Successfully added tasks."],
          { s with httpCount := s.httpCount + 1 })) ∧
    (∀ (squid_hash : JVal) (input_source : String) (env : Env) (s : St) (b : JVal),
      env.http s.httpCount = .success b →
      pyStrip input_source ≠ "" →
      add_tasks squid_hash input_source false env s =
        (.ok 1,
          [.logMsg .info "Adding tasks to squid...",
           .http ⟨.post, .api ["tasks"],
             some (tasksPayload [pyStrip input_source] squid_hash), []⟩,
           .logMsg .info "Successfully added tasks."],
          { s with httpCount := s.httpCount + 1 })) := by
  constructor
  · intro squid_hash input_source env s ls b hf hb hne
    have hne' : stripNonBlank ls ≠ [] := by
      rw [stripNonBlank_eq_filter]; exact hne
    have h := add_tasks_file_run squid_hash input_source env s ls hf
    rw [if_neg hne'] at h
    simp only [hb] at h
    simpa [stripNonBlank_eq_filter] using h
  · intro squid_hash input_source env s b hb hne
    have h := add_tasks_single_run squid_hash input_source env s
    rw [if_neg hne] at h
    simpa only [hb] using h

/-- C9: `prompt_account_selection` raises `ValueError` when no
`linkedin-sync` account exists, and with exactly one such account it
returns that account's id without consuming any user input (no
`input()` prompt appears in the trace and the input counter is
unchanged). -/
theorem claim_C9_account_selection_edge_cases :
    (∀ (fuel : Nat) (env : Env) (s : St) (d : JVal),
      env.http s.httpCount = .success d →
      linkedinAccountsOf d = [] →
      prompt_account_selection fuel env s =
        (.error (.valueError "No LinkedIn accounts available."),
          [.logMsg .info "Listing accounts...",
           .http ⟨.get, .api ["accounts"], none, []⟩,
           .logMsg .info "Fetched accounts.",
           .logMsg .error "No LinkedIn accounts found. Please add a LinkedIn account on Lobstr.io first."],
          { s with httpCount := s.httpCount + 1 })) ∧
    (∀ (fuel : Nat) (env : Env) (s : St) (d a : JVal),
      env.http s.httpCount = .success d →
      linkedinAccountsOf d = [a] →
      prompt_account_selection fuel env s =
        (.ok (a.get "id"),
          [.logMsg .info "Listing accounts...",
           .http ⟨.get, .api ["accounts"], none, []⟩,
           .logMsg .info "Fetched accounts.",
           .logMsg .info "Auto-selecting only available LinkedIn account."],
          { s with httpCount := s.httpCount + 1 }) ∧
      (∀ m : String,
        Event.promptInput m ∉ (prompt_account_selection fuel env s).2.1) ∧
      (prompt_account_selection fuel env s).2.2.inputCount = s.inputCount) := by
  constructor
  · intro fuel env s d h1 h2
    simp [prompt_account_selection_run, h1, h2]
  · intro fuel env s d a h1 h2
    have hrun : prompt_account_selection fuel env s =
        (.ok (a.get "id"),
          [.logMsg .info "Listing accounts...",
           .http ⟨.get, .api ["accounts"], none, []⟩,
           .logMsg .info "Fetched accounts.",
           .logMsg .info "Auto-selecting only available LinkedIn account."],
          { s with httpCount := s.httpCount + 1 }) := by
      simp [prompt_account_selection_run, h1, h2]
    exact ⟨hrun, by simp [hrun], by simp [hrun]⟩

/-- C10: `download_csv` returns normally, writing no file, when the
download response has no `s3` URL; and a file write occurs only when
the response carried a truthy `s3` URL, the S3 fetch succeeded, the
written file is the timestamped CSV, and the call returns normally. -/
theorem claim_C10_download_csv_no_s3 :
    (∀ (run_hash : JVal) (env : Env) (s : St) (b : JVal),
      env.http s.httpCount = .success b →
      b.get "s3" = .null →
      download_csv run_hash none env s =
        (.ok (),
          [.logMsg .info "Initiating CSV download for run...",
           .http ⟨.get, .api ["runs", run_hash.pyStr, "download"], none, []⟩,
           .logMsg .error "No S3 URL returned for CSV download."],
          { s with httpCount := s.httpCount + 1 })) ∧
    (∀ (run_hash : JVal) (env : Env) (s : St) (r : Except Err Unit)
      (tr : List Event) (s2 : St) (p : String) (m : WriteMode) (c : JVal),
      download_csv run_hash none env s = (r, tr, s2) →
      Event.fileWrite p m c ∈ tr →
      ∃ b, env.http s.httpCount = .success b ∧ (b.get "s3").truthy = true ∧
        (∃ content, env.http (s.httpCount + 1) = .success content ∧ c = content) ∧
        p = ospathjoin SCRIPT_DIR ("results_" ++ env.timestamp ++ ".csv") ∧
        m = .binary ∧ r = .ok ()) := by
  constructor
  · intro run_hash env s b h1 h2
    simp [download_csv_run, h1, h2, JVal.truthy]
  · intro run_hash env s r tr s2 p m c h hmem
    cases h1 : env.http s.httpCount with
    | failure e =>
      simp [download_csv_run, h1] at h
      obtain ⟨-, htr, -⟩ := h
      subst htr
      simp at hmem
    | success b =>
      by_cases h2 : (b.get "s3").truthy
      · cases h3 : env.http (s.httpCount + 1) with
        | failure e =>
          simp [download_csv_run, h1, h2, h3] at h
          obtain ⟨-, htr, -⟩ := h
          subst htr
          simp at hmem
        | success content =>
          simp [download_csv_run, h1, h2, h3] at h
          obtain ⟨hr, htr, -⟩ := h
          subst htr
          simp at hmem
          obtain ⟨hp, hm, hc⟩ := hmem
          exact ⟨b, rfl, h2, ⟨content, rfl, hc⟩, hp, hm, by simp [hr]⟩
      · simp [download_csv_run, h1, h2] at h
        obtain ⟨-, htr, -⟩ := h
        subst htr
        simp at hmem

/-- `add_tasks` can only return 0 without having made an HTTP request:
the state is unchanged and the trace is at most the file read plus the
warning log. -/
theorem add_tasks_zero_run (squid_hash : JVal) (input_source : String)
    (is_file : Bool) (env : Env) (s : St) (tr : List Event) (s2 : St)
    (h : add_tasks squid_hash input_source is_file env s = (.ok 0, tr, s2)) :
    s2 = s ∧ (∀ req : HttpReq, Event.http req ∉ tr) ∧
    stepsOf tr = (if is_file then [.readUrls] else []) := by
  cases is_file with
  | true =>
    cases hf : env.files (ospathjoin SCRIPT_DIR input_source) with
    | none => simp [add_tasks_file_missing _ _ _ _ hf] at h
    | some ls =>
      rw [add_tasks_file_run _ _ _ _ _ hf] at h
      by_cases hu : stripNonBlank ls = []
      · rw [if_pos hu] at h
        obtain ⟨htr, hs⟩ := by simpa using h
        subst htr
        refine ⟨hs.symm, ?_, ?_⟩
        · intro req; simp
        · simp [stepsOf, List.filterMap_cons, stepOf_fileRead, stepOf_logMsg]
      · rw [if_neg hu] at h
        cases h1 : env.http s.httpCount with
        | failure e => rw [h1] at h; simp at h
        | success b =>
          rw [h1] at h
          obtain ⟨hn, -, -⟩ := by simpa using h
          exact absurd hn (by simpa [List.length_eq_zero] using hu)
  | false =>
    rw [add_tasks_single_run] at h
    by_cases hu : pyStrip input_source = ""
    · rw [if_pos hu] at h
      obtain ⟨htr, hs⟩ := by simpa using h
      subst htr
      refine ⟨hs.symm, ?_, ?_⟩
      · intro req; simp
      · simp [stepsOf, List.filterMap_cons, stepOf_logMsg]
    · rw [if_neg hu] at h
      cases h1 : env.http s.httpCount with
      | failure e => rw [h1] at h; simp at h
      | success b => rw [h1] at h; simp at h

/-- Decomposition of a `scrape_steps` run that exited early because
`add_tasks` reported zero URLs: everything up to and including the
(requestless) `add_tasks`, and nothing afterwards. -/
theorem scrape_steps_nothing_steps (input_source : String)
    (is_file enrich_email : Bool) (fuel : Nat) (env : Env) (s0 : St)
    (tr : List Event) (sF : St)
    (h : scrape_steps input_source is_file enrich_email fuel env s0 =
      (.ok .nothingToProcess, tr, sF)) :
    ∃ (madeNew confirmedEmpty : Bool),
      stepsOf tr =
        [.listSquids] ++ (if madeNew then [.createSquid] else []) ++
        [.writeCache, .listAccounts, .updateSquid] ++
        (if confirmedEmpty then [.emptySquid] else []) ++
        (if is_file then [.readUrls] else []) := by
  rcases h1 : prompt_squid_selection env s0 with ⟨r1, t1, s1⟩
  cases r1 with
  | error e => simp [scrape_steps, Bind.bind, M.bind, h1] at h
  | ok v1 =>
  obtain ⟨sqid, is_new⟩ := v1
  rcases h2 : prompt_account_selection fuel env s1 with ⟨r2, t2, s2⟩
  cases r2 with
  | error e => simp [scrape_steps, Bind.bind, M.bind, h1, h2] at h
  | ok acc =>
  rcases h3 : update_squid sqid acc enrich_email env s2 with ⟨r3, t3, s3⟩
  cases r3 with
  | error e => simp [scrape_steps, Bind.bind, M.bind, h1, h2, h3] at h
  | ok u3 =>
  have hp1 := prompt_squid_selection_steps env s0 sqid is_new t1 s1 h1
  have hp2 := prompt_account_selection_steps fuel env s1 acc t2 s2 h2
  have hp3 := update_squid_steps sqid acc enrich_email env s2 t3 s3 h3
  cases is_new with
  | true =>
    rcases h5 : add_tasks sqid input_source is_file env s3 with ⟨r5, t5, s5⟩
    cases r5 with
    | error e => simp [scrape_steps, Bind.bind, M.bind, Pure.pure, M.pure, h1, h2, h3, h5] at h
    | ok n =>
    by_cases hn : n = 0
    · subst hn
      obtain ⟨-, -, hp5⟩ := add_tasks_zero_run sqid input_source is_file env s3 t5 s5 h5
      simp [scrape_steps, Bind.bind, M.bind, Pure.pure, M.pure, logInfo, emit,
        h1, h2, h3, h5] at h
      obtain ⟨htr, -⟩ := h
      refine ⟨true, false, ?_⟩
      simp only [stepsOf] at hp1 hp2 hp3 hp5 ⊢
      subst htr
      simp [List.filterMap_append, List.filterMap_cons, hp1, hp2, hp3, hp5,
        stepOf_logMsg]
    · rcases h6 : run_and_poll sqid fuel env s5 with ⟨r6, t6, s6⟩
      cases r6 with
      | error e => simp [scrape_steps, Bind.bind, M.bind, Pure.pure, M.pure, h1, h2, h3, h5, hn, h6] at h
      | ok rh =>
      rcases h7 : fetch_results rh env s6 with ⟨r7, t7, s7⟩
      cases r7 with
      | error e => simp [scrape_steps, Bind.bind, M.bind, Pure.pure, M.pure, h1, h2, h3, h5, hn, h6, h7] at h
      | ok dta =>
      rcases h9 : download_csv rh none env s7 with ⟨r9, t9, s9⟩
      cases r9 with
      | error e =>
        simp [scrape_steps, Bind.bind, M.bind, Pure.pure, M.pure,
          save_to_json_run, h1, h2, h3, h5, hn, h6, h7, h9] at h
      | ok u9 =>
        simp [scrape_steps, Bind.bind, M.bind, Pure.pure, M.pure,
          save_to_json_run, h1, h2, h3, h5, hn, h6, h7, h9] at h
  | false =>
    rcases h4 : prompt_empty_squid sqid env s3 with ⟨r4, t4, s4⟩
    cases r4 with
    | error e => simp [scrape_steps, Bind.bind, M.bind, Pure.pure, M.pure, h1, h2, h3, h4] at h
    | ok u4 =>
    rcases h5 : add_tasks sqid input_source is_file env s4 with ⟨r5, t5, s5⟩
    cases r5 with
    | error e => simp [scrape_steps, Bind.bind, M.bind, Pure.pure, M.pure, h1, h2, h3, h4, h5] at h
    | ok n =>
    by_cases hn : n = 0
    · subst hn
      obtain ⟨bE, hp4⟩ := prompt_empty_squid_steps sqid env s3 t4 s4 h4
      obtain ⟨-, -, hp5⟩ := add_tasks_zero_run sqid input_source is_file env s4 t5 s5 h5
      simp [scrape_steps, Bind.bind, M.bind, Pure.pure, M.pure, logInfo, emit,
        h1, h2, h3, h4, h5] at h
      obtain ⟨htr, -⟩ := h
      refine ⟨false, bE, ?_⟩
      simp only [stepsOf] at hp1 hp2 hp3 hp4 hp5 ⊢
      subst htr
      cases bE <;>
        simp [List.filterMap_append, List.filterMap_cons, hp1, hp2, hp3, hp4,
          hp5, stepOf_logMsg]
    · rcases h6 : run_and_poll sqid fuel env s5 with ⟨r6, t6, s6⟩
      cases r6 with
      | error e => simp [scrape_steps, Bind.bind, M.bind, Pure.pure, M.pure, h1, h2, h3, h4, h5, hn, h6] at h
      | ok rh =>
      rcases h7 : fetch_results rh env s6 with ⟨r7, t7, s7⟩
      cases r7 with
      | error e => simp [scrape_steps, Bind.bind, M.bind, Pure.pure, M.pure, h1, h2, h3, h4, h5, hn, h6, h7] at h
      | ok dta =>
      rcases h9 : download_csv rh none env s7 with ⟨r9, t9, s9⟩
      cases r9 with
      | error e =>
        simp [scrape_steps, Bind.bind, M.bind, Pure.pure, M.pure,
          save_to_json_run, h1, h2, h3, h4, h5, hn, h6, h7, h9] at h
      | ok u9 =>
        simp [scrape_steps, Bind.bind, M.bind, Pure.pure, M.pure,
          save_to_json_run, h1, h2, h3, h4, h5, hn, h6, h7, h9] at h

/-- C8: `add_tasks` returns 0, leaves the request counter untouched and
emits no HTTP request when its input yields no URLs — an existing file
whose every line is blank, or a blank single URL — and a
`scrape_steps` run that took the resulting early exit never starts a
run (nor polls, fetches, saves or downloads). -/
theorem claim_C8_no_urls_no_run :
    (∀ (squid_hash : JVal) (input_source : String) (env : Env) (s : St)
      (ls : List String),
      env.files (ospathjoin SCRIPT_DIR input_source) = some ls →
      (∀ l ∈ ls, pyStrip l = "") →
      add_tasks squid_hash input_source true env s =
        (.ok 0,
          [.fileRead (ospathjoin SCRIPT_DIR input_source),
           .logMsg .warning "No URLs found to process."], s)) ∧
    (∀ (squid_hash : JVal) (input_source : String) (env : Env) (s : St),
      pyStrip input_source = "" →
      add_tasks squid_hash input_source false env s =
        (.ok 0, [.logMsg .warning "No URLs found to process."], s)) ∧
    (∀ (input_source : String) (is_file enrich_email : Bool) (fuel : Nat)
      (env : Env) (s0 : St) (tr : List Event) (sF : St),
      scrape_steps input_source is_file enrich_email fuel env s0 =
        (.ok .nothingToProcess, tr, sF) →
      Step.startRun ∉ stepsOf tr ∧ Step.pollStats ∉ stepsOf tr ∧
      Step.fetchResults ∉ stepsOf tr ∧ Step.writeJson ∉ stepsOf tr ∧
      Step.downloadReq ∉ stepsOf tr) := by
  refine ⟨?_, ?_, ?_⟩
  · intro squid_hash input_source env s ls hf hbl
    have h := add_tasks_file_run squid_hash input_source env s ls hf
    rw [if_pos (stripNonBlank_nil_of_blank ls hbl)] at h
    exact h
  · intro squid_hash input_source env s hbl
    have h := add_tasks_single_run squid_hash input_source env s
    rw [if_pos hbl] at h
    exact h
  · intro input_source is_file enrich_email fuel env s0 tr sF h
    obtain ⟨mN, cE, hsteps⟩ := scrape_steps_nothing_steps input_source is_file
      enrich_email fuel env s0 tr sF h
    rw [hsteps]
    cases mN <;> cases cE <;> cases is_file <;> simp

theorem pyInt_n_none : pyInt? "n" = none := by decide

/-- C5: with at least one LinkedIn squid listed and an in-range numeric
choice, `prompt_squid_selection` returns that existing squid's id with
`is_new = False`; in every other case (no squids, the answer `n`, a
non-numeric answer, or an out-of-range number) it creates a new squid
and returns its id with `is_new = True`; and conversely `is_new =
False` occurs only on the in-range numeric branch. -/
theorem claim_C5_squid_selection_cases :
    (∀ (env : Env) (s : St) (d : JVal) (k : Int),
      env.http s.httpCount = .success d →
      linkedinSquidsOf d ≠ [] →
      pyInt? (pyLower (pyStrip (env.userInput s.inputCount))) = some k →
      1 ≤ k → k ≤ ((linkedinSquidsOf d).length : Int) →
      (prompt_squid_selection env s).1 =
        .ok (((linkedinSquidsOf d).getD (k - 1).toNat .null).get "id", false)) ∧
    (∀ (env : Env) (s : St) (d c : JVal),
      env.http s.httpCount = .success d →
      env.http (s.httpCount + 1) = .success c →
      (linkedinSquidsOf d = [] ∨
       pyLower (pyStrip (env.userInput s.inputCount)) = "n" ∨
       pyInt? (pyLower (pyStrip (env.userInput s.inputCount))) = none ∨
       (∃ k : Int, pyInt? (pyLower (pyStrip (env.userInput s.inputCount))) = some k ∧
         (k < 1 ∨ ((linkedinSquidsOf d).length : Int) < k))) →
      (prompt_squid_selection env s).1 = .ok (c.get "id", true)) ∧
    (∀ (env : Env) (s : St) (d sq : JVal),
      env.http s.httpCount = .success d →
      (prompt_squid_selection env s).1 = .ok (sq, false) →
      linkedinSquidsOf d ≠ [] ∧
      ∃ k : Int, pyInt? (pyLower (pyStrip (env.userInput s.inputCount))) = some k ∧
        1 ≤ k ∧ k ≤ ((linkedinSquidsOf d).length : Int) ∧
        sq = ((linkedinSquidsOf d).getD (k - 1).toNat .null).get "id") := by
  refine ⟨?_, ?_, ?_⟩
  · intro env s d k h1 hne hk hk1 hk2
    have h6 : 1 ≤ k ∧ k - 1 < ((linkedinSquidsOf d).length : Int) := ⟨hk1, by omega⟩
    have hn : pyLower (pyStrip (env.userInput s.inputCount)) ≠ "n" := by
      intro hcon
      rw [hcon, pyInt_n_none] at hk
      exact absurd hk (by simp)
    simp [prompt_squid_selection_run, h1, hne, hn, hk, h6]
  · intro env s d c h1 h2 hdisj
    by_cases hsq : linkedinSquidsOf d = []
    · simp [prompt_squid_selection_run, h1, hsq, h2]
    · by_cases hn : pyLower (pyStrip (env.userInput s.inputCount)) = "n"
      · simp [prompt_squid_selection_run, h1, hsq, hn, h2]
      · rcases hdisj with hdisj | hdisj | hdisj | ⟨k, hk, hrange⟩
        · exact absurd hdisj hsq
        · exact absurd hdisj hn
        · simp [prompt_squid_selection_run, h1, hsq, hn, hdisj, h2]
        · have h6 : ¬(1 ≤ k ∧ k - 1 < ((linkedinSquidsOf d).length : Int)) := by omega
          simp [prompt_squid_selection_run, h1, hsq, hn, hk, h6, h2]
  · intro env s d sq h1 h
    by_cases hsq : linkedinSquidsOf d = []
    · cases h3 : env.http (s.httpCount + 1) with
      | failure e => simp [prompt_squid_selection_run, h1, hsq, h3] at h
      | success b => simp [prompt_squid_selection_run, h1, hsq, h3] at h
    · by_cases hn : pyLower (pyStrip (env.userInput s.inputCount)) = "n"
      · cases h3 : env.http (s.httpCount + 1) with
        | failure e => simp [prompt_squid_selection_run, h1, hsq, hn, h3] at h
        | success b => simp [prompt_squid_selection_run, h1, hsq, hn, h3] at h
      · cases hk : pyInt? (pyLower (pyStrip (env.userInput s.inputCount))) with
        | some k =>
          by_cases h6 : 1 ≤ k ∧ k - 1 < ((linkedinSquidsOf d).length : Int)
          · simp [prompt_squid_selection_run, h1, hsq, hn, hk, h6] at h
            exact ⟨hsq, k, rfl, h6.1, by omega, by simp [h]⟩
          · cases h3 : env.http (s.httpCount + 1) with
            | failure e => simp [prompt_squid_selection_run, h1, hsq, hn, hk, h6, h3] at h
            | success b => simp [prompt_squid_selection_run, h1, hsq, hn, hk, h6, h3] at h
        | none =>
          cases h3 : env.http (s.httpCount + 1) with
          | failure e => simp [prompt_squid_selection_run, h1, hsq, hn, hk, h3] at h
          | success b => simp [prompt_squid_selection_run, h1, hsq, hn, hk, h3] at h

/-- C2: whenever `run_and_poll` returns (for any fuel bound on the
unbounded `while True:` loop), the returned value is the id from the
run-start response, some `k` stats responses were polled and found
not-done, the `k`-th-next response reported `is_done`, and the trace is
the start events followed by `pollEvts`, which places exactly one
blocking `DEFAULT_POLL_INTERVAL` (10-second) sleep between successive
stats requests and ends on the done response; the loop never produces a
value on any other path. -/
theorem claim_C2_poll_until_done (squid_hash : JVal) (fuel : Nat)
    (env : Env) (s : St) (rh : JVal) (tr : List Event) (s2 : St)
    (h : run_and_poll squid_hash fuel env s = (.ok rh, tr, s2)) :
    DEFAULT_POLL_INTERVAL = 10 ∧
    ∃ (b : JVal) (k : Nat),
      env.http s.httpCount = .success b ∧
      rh = b.get "id" ∧
      (∀ i < k, ∃ bi, env.http (s.httpCount + 1 + i) = .success bi ∧
        (bi.get "is_done").truthy = false) ∧
      (∃ bk, env.http (s.httpCount + 1 + k) = .success bk ∧
        (bk.get "is_done").truthy = true) ∧
      tr = [.logMsg .info "Starting run for squid...",
            .http ⟨.post, .api ["runs"], some (JVal.obj [("squid", squid_hash)]), []⟩,
            .logMsg .info "Run started."] ++ pollEvts rh k := by
  refine ⟨rfl, ?_⟩
  cases h1 : env.http s.httpCount with
  | failure e => simp [run_and_poll_run, h1] at h
  | success b =>
    rcases hrec : poll_loop (b.get "id") fuel env { s with httpCount := s.httpCount + 1 }
      with ⟨r, t, sr⟩
    cases r with
    | error e => cases e <;> simp [run_and_poll_run, h1, hrec] at h
    | ok rh0 =>
      simp [run_and_poll_run, h1, hrec] at h
      obtain ⟨hrh0, htr, -⟩ := h
      obtain ⟨hid, k, hnot, hdone, ht⟩ := poll_loop_done (b.get "id") fuel env
        _ rh0 t sr hrec
      refine ⟨b, k, rfl, by rw [← hrh0, hid], ?_, ?_, ?_⟩
      · intro i hi
        obtain ⟨bi, hbi, hbi2⟩ := hnot i hi
        exact ⟨bi, by simpa using hbi, hbi2⟩
      · obtain ⟨bk, hbk, hbk2⟩ := hdone
        exact ⟨bk, by simpa using hbk, hbk2⟩
      · rw [← htr, ht, ← hrh0, hid]; rfl

/-- C1: a fully successful interactive scrape performs its observable
operations in the claimed fixed order — squid selection (listing, a
creation exactly when a new squid is made, and the cache write),
account selection, the squid update attaching the account, an optional
emptying only when reusing, the URL submission (preceded by the
URL-file read in file mode), the run start, the polling to completion,
the results fetch, the JSON save, and finally the CSV download — and
`run_interactive_scrape` returns that very execution unchanged. -/
theorem claim_C1_interactive_scrape_order (input_source : String)
    (is_file enrich_email : Bool) (fuel : Nat) (env : Env) (s0 : St)
    (tr : List Event) (sF : St)
    (h : scrape_steps input_source is_file enrich_email fuel env s0 =
      (.ok .finished, tr, sF)) :
    run_interactive_scrape input_source is_file enrich_email fuel env s0 =
      (.ok (), tr, sF) ∧
    ∃ (madeNew confirmedEmpty gotCsv : Bool) (k : Nat),
      (madeNew = true → confirmedEmpty = false) ∧
      stepsOf tr =
        [.listSquids] ++ (if madeNew then [.createSquid] else []) ++
        [.writeCache, .listAccounts, .updateSquid] ++
        (if confirmedEmpty then [.emptySquid] else []) ++
        (if is_file then [.readUrls] else []) ++ [.addTasks] ++
        (.startRun :: List.replicate (k + 1) .pollStats) ++
        [.fetchResults, .writeJson] ++
        (.downloadReq :: (if gotCsv then [.s3Get, .writeCsv] else [])) := by
  constructor
  · simp [run_interactive_scrape, M.catchExc, Bind.bind, M.bind, Pure.pure,
      M.pure, h]
  · exact scrape_steps_finished_steps input_source is_file enrich_email fuel
      env s0 tr sF h

/-- C4: every API operation of the scraper — `create_squid`,
`update_squid`, `empty_squid`, `delete_squid`, `list_squids`,
`list_accounts`, `add_tasks` (both input modes), `abort_run`,
`run_and_poll` (both on the start request and on any poll),
`fetch_results` and `download_csv` (both on the download request and on
the S3 fetch) — reacts to an HTTP request failure by logging an
error-level message and re-raising the same `RequestException`
unchanged, after consuming exactly the one failing request (no retry,
no recovery). -/
theorem claim_C4_request_failures_reraised :
    (∀ (env : Env) (s : St) (e : Nat), env.http s.httpCount = .failure e →
      (create_squid env s).1 = .error (.requestException e) ∧
      (create_squid env s).2.2.httpCount = s.httpCount + 1 ∧
      ∃ m, Event.logMsg .error m ∈ (create_squid env s).2.1) ∧
    (∀ (sq acc : JVal) (em : Bool) (env : Env) (s : St) (e : Nat),
      env.http s.httpCount = .failure e →
      (update_squid sq acc em env s).1 = .error (.requestException e) ∧
      (update_squid sq acc em env s).2.2.httpCount = s.httpCount + 1 ∧
      ∃ m, Event.logMsg .error m ∈ (update_squid sq acc em env s).2.1) ∧
    (∀ (sq : JVal) (env : Env) (s : St) (e : Nat),
      env.http s.httpCount = .failure e →
      (empty_squid sq env s).1 = .error (.requestException e) ∧
      (empty_squid sq env s).2.2.httpCount = s.httpCount + 1 ∧
      ∃ m, Event.logMsg .error m ∈ (empty_squid sq env s).2.1) ∧
    (∀ (sq : JVal) (env : Env) (s : St) (e : Nat),
      env.http s.httpCount = .failure e →
      (delete_squid sq env s).1 = .error (.requestException e) ∧
      (delete_squid sq env s).2.2.httpCount = s.httpCount + 1 ∧
      ∃ m, Event.logMsg .error m ∈ (delete_squid sq env s).2.1) ∧
    (∀ (env : Env) (s : St) (e : Nat), env.http s.httpCount = .failure e →
      (list_squids env s).1 = .error (.requestException e) ∧
      (list_squids env s).2.2.httpCount = s.httpCount + 1 ∧
      ∃ m, Event.logMsg .error m ∈ (list_squids env s).2.1) ∧
    (∀ (env : Env) (s : St) (e : Nat), env.http s.httpCount = .failure e →
      (list_accounts env s).1 = .error (.requestException e) ∧
      (list_accounts env s).2.2.httpCount = s.httpCount + 1 ∧
      ∃ m, Event.logMsg .error m ∈ (list_accounts env s).2.1) ∧
    (∀ (sq : JVal) (inp : String) (env : Env) (s : St) (e : Nat),
      env.http s.httpCount = .failure e → pyStrip inp ≠ "" →
      (add_tasks sq inp false env s).1 = .error (.requestException e) ∧
      (add_tasks sq inp false env s).2.2.httpCount = s.httpCount + 1 ∧
      ∃ m, Event.logMsg .error m ∈ (add_tasks sq inp false env s).2.1) ∧
    (∀ (sq : JVal) (inp : String) (env : Env) (s : St) (e : Nat)
      (ls : List String),
      env.http s.httpCount = .failure e →
      env.files (ospathjoin SCRIPT_DIR inp) = some ls →
      stripNonBlank ls ≠ [] →
      (add_tasks sq inp true env s).1 = .error (.requestException e) ∧
      (add_tasks sq inp true env s).2.2.httpCount = s.httpCount + 1 ∧
      ∃ m, Event.logMsg .error m ∈ (add_tasks sq inp true env s).2.1) ∧
    (∀ (rh : JVal) (env : Env) (s : St) (e : Nat),
      env.http s.httpCount = .failure e →
      (abort_run rh env s).1 = .error (.requestException e) ∧
      (abort_run rh env s).2.2.httpCount = s.httpCount + 1 ∧
      ∃ m, Event.logMsg .error m ∈ (abort_run rh env s).2.1) ∧
    (∀ (sq : JVal) (fuel : Nat) (env : Env) (s : St) (e : Nat),
      env.http s.httpCount = .failure e →
      (run_and_poll sq fuel env s).1 = .error (.requestException e) ∧
      (run_and_poll sq fuel env s).2.2.httpCount = s.httpCount + 1 ∧
      ∃ m, Event.logMsg .error m ∈ (run_and_poll sq fuel env s).2.1) ∧
    (∀ (sq : JVal) (fuel : Nat) (env : Env) (s : St) (e : Nat) (b : JVal),
      env.http s.httpCount = .success b →
      env.http (s.httpCount + 1) = .failure e →
      (run_and_poll sq (fuel + 1) env s).1 = .error (.requestException e) ∧
      (run_and_poll sq (fuel + 1) env s).2.2.httpCount = s.httpCount + 1 + 1 ∧
      ∃ m, Event.logMsg .error m ∈ (run_and_poll sq (fuel + 1) env s).2.1) ∧
    (∀ (rh : JVal) (env : Env) (s : St) (e : Nat),
      env.http s.httpCount = .failure e →
      (fetch_results rh env s).1 = .error (.requestException e) ∧
      (fetch_results rh env s).2.2.httpCount = s.httpCount + 1 ∧
      ∃ m, Event.logMsg .error m ∈ (fetch_results rh env s).2.1) ∧
    (∀ (rh : JVal) (env : Env) (s : St) (e : Nat),
      env.http s.httpCount = .failure e →
      (download_csv rh none env s).1 = .error (.requestException e) ∧
      (download_csv rh none env s).2.2.httpCount = s.httpCount + 1 ∧
      ∃ m, Event.logMsg .error m ∈ (download_csv rh none env s).2.1) ∧
    (∀ (rh : JVal) (env : Env) (s : St) (e : Nat) (b : JVal),
      env.http s.httpCount = .success b →
      (b.get "s3").truthy = true →
      env.http (s.httpCount + 1) = .failure e →
      (download_csv rh none env s).1 = .error (.requestException e) ∧
      (download_csv rh none env s).2.2.httpCount = s.httpCount + 1 + 1 ∧
      ∃ m, Event.logMsg .error m ∈ (download_csv rh none env s).2.1) := by
  refine ⟨?_, ?_, ?_, ?_, ?_, ?_, ?_, ?_, ?_, ?_, ?_, ?_, ?_, ?_⟩
  · intro env s e h1
    refine ⟨?_, ?_, "Failed to create squid.", ?_⟩ <;> simp [create_squid_run, h1]
  · intro sq acc em env s e h1
    refine ⟨?_, ?_, "Failed to update squid.", ?_⟩ <;> simp [update_squid_run, h1]
  · intro sq env s e h1
    refine ⟨?_, ?_, "Failed to empty squid.", ?_⟩ <;> simp [empty_squid_run, h1]
  · intro sq env s e h1
    refine ⟨?_, ?_, "Failed to delete squid.", ?_⟩ <;> simp [delete_squid_run, h1]
  · intro env s e h1
    refine ⟨?_, ?_, "Failed to list squids.", ?_⟩ <;> simp [list_squids_run, h1]
  · intro env s e h1
    refine ⟨?_, ?_, "Failed to list accounts.", ?_⟩ <;> simp [list_accounts_run, h1]
  · intro sq inp env s e h1 hne
    have h := add_tasks_single_run sq inp env s
    rw [if_neg hne] at h
    simp only [h1] at h
    refine ⟨?_, ?_, "Failed to add tasks.", ?_⟩ <;> simp [h]
  · intro sq inp env s e ls h1 hf hne
    have h := add_tasks_file_run sq inp env s ls hf
    rw [if_neg hne] at h
    simp only [h1] at h
    refine ⟨?_, ?_, "Failed to add tasks.", ?_⟩ <;> simp [h]
  · intro rh env s e h1
    refine ⟨?_, ?_, "Failed to abort run.", ?_⟩ <;> simp [abort_run_run, h1]
  · intro sq fuel env s e h1
    refine ⟨?_, ?_, "Error during run or polling.", ?_⟩ <;>
      simp [run_and_poll_run, h1]
  · intro sq fuel env s e b h1 h2
    have hp : poll_loop (b.get "id") (fuel + 1) env
        { s with httpCount := s.httpCount + 1 } =
        (.error (.requestException e),
          [.http ⟨.get, .api ["runs", (b.get "id").pyStr, "stats"], none, []⟩],
          { s with httpCount := s.httpCount + 1 + 1 }) := by
      rw [poll_loop_succ]
      simp [h2]
    refine ⟨?_, ?_, "Error during run or polling.", ?_⟩ <;>
      simp [run_and_poll_run, h1, hp]
  · intro rh env s e h1
    refine ⟨?_, ?_, "Failed to fetch results.", ?_⟩ <;> simp [fetch_results_run, h1]
  · intro rh env s e h1
    refine ⟨?_, ?_, "Failed to download CSV.", ?_⟩ <;> simp [download_csv_run, h1]
  · intro rh env s e b h1 hs3 h2
    refine ⟨?_, ?_, "Failed to download CSV.", ?_⟩ <;>
      simp [download_csv_run, h1, hs3, h2]

/-! ## Disk I/O inventory (claim C3)

`fileEvOk` lists the file touched by each kind of disk event the
program can produce: the URL-list read, and writes to the JSON result
file, the CSV result file, or the `.squid_id` cache file.  (Log lines,
recorded as `logMsg` events, additionally go to `LOG_FILE` through the
`logging.FileHandler` configured at module load; they are accounted for
separately in the claim.) -/

def fileEvOk (input_source ts : String) : Event → Bool
  | .fileRead p => p == ospathjoin SCRIPT_DIR input_source
  | .fileWrite p _ _ =>
    p == squid_cache_file ||
    p == ospathjoin SCRIPT_DIR ("results_" ++ ts ++ ".json") ||
    p == ospathjoin SCRIPT_DIR ("results_" ++ ts ++ ".csv")
  | _ => true

theorem M.all_bind {α β : Type} (p : Event → Bool) (x : M α) (f : α → M β)
    (env : Env) (s : St)
    (hx : (x env s).2.1.all p = true)
    (hf : ∀ a, ((f a) env (x env s).2.2).2.1.all p = true) :
    ((x >>= f) env s).2.1.all p = true := by
  show (M.bind x f env s).2.1.all p = true
  unfold M.bind
  rcases hx2 : x env s with ⟨r, t, s1⟩
  rw [hx2] at hx hf
  cases r with
  | ok a =>
    have hfa := hf a
    rcases hf2 : f a env s1 with ⟨r2, t2, s2⟩
    rw [hf2] at hfa
    simp_all [List.all_append]
  | error e => simpa using hx

theorem M.all_catchReq {α : Type} (p : Event → Bool) (x : M α)
    (hnd : Nat → M α) (env : Env) (s : St)
    (hx : (x env s).2.1.all p = true)
    (hh : ∀ e, ((hnd e) env (x env s).2.2).2.1.all p = true) :
    ((M.catchReq x hnd) env s).2.1.all p = true := by
  unfold M.catchReq
  rcases hx2 : x env s with ⟨r, t, s1⟩
  rw [hx2] at hx hh
  cases r with
  | ok a => simpa using hx
  | error e =>
    cases e with
    | requestException ex =>
      have hhe := hh ex
      rcases hf2 : hnd ex env s1 with ⟨r2, t2, s2⟩
      rw [hf2] at hhe
      simp_all [List.all_append]
    | valueError m => simpa using hx
    | fileNotFound m => simpa using hx
    | diverge => simpa using hx

theorem M.all_catchExc {α : Type} (p : Event → Bool) (x : M α)
    (hnd : Err → M α) (env : Env) (s : St)
    (hx : (x env s).2.1.all p = true)
    (hh : ∀ e, ((hnd e) env (x env s).2.2).2.1.all p = true) :
    ((M.catchExc x hnd) env s).2.1.all p = true := by
  unfold M.catchExc
  rcases hx2 : x env s with ⟨r, t, s1⟩
  rw [hx2] at hx hh
  cases r with
  | ok a => simpa using hx
  | error e =>
    cases e with
    | diverge => simpa using hx
    | requestException ex =>
      have hhe := hh (.requestException ex)
      rcases hf2 : hnd (.requestException ex) env s1 with ⟨r2, t2, s2⟩
      rw [hf2] at hhe
      simp_all [List.all_append]
    | valueError m =>
      have hhe := hh (.valueError m)
      rcases hf2 : hnd (.valueError m) env s1 with ⟨r2, t2, s2⟩
      rw [hf2] at hhe
      simp_all [List.all_append]
    | fileNotFound m =>
      have hhe := hh (.fileNotFound m)
      rcases hf2 : hnd (.fileNotFound m) env s1 with ⟨r2, t2, s2⟩
      rw [hf2] at hhe
      simp_all [List.all_append]

theorem all_fileEvOk_consoleOuts (inp ts : String) (msgs : List String) :
    (msgs.map Event.consoleOut).all (fileEvOk inp ts) = true := by
  induction msgs with
  | nil => rfl
  | cons m ms ih => simp [fileEvOk, ih]

theorem fileOk_prompt_squid_selection (inp : String) (env : Env) (s : St) :
    (prompt_squid_selection env s).2.1.all (fileEvOk inp env.timestamp) = true := by
  cases h1 : env.http s.httpCount with
  | failure e => simp [prompt_squid_selection_run, h1, fileEvOk]
  | success d =>
    by_cases h2 : linkedinSquidsOf d = []
    · cases h3 : env.http (s.httpCount + 1) <;>
        simp [prompt_squid_selection_run, h1, h2, h3, fileEvOk]
    · by_cases h4 : pyLower (pyStrip (env.userInput s.inputCount)) = "n"
      · cases h3 : env.http (s.httpCount + 1) <;>
          simp [prompt_squid_selection_run, h1, h2, h3, h4, fileEvOk,
            List.all_append, all_fileEvOk_consoleOuts]
      · cases h5 : pyInt? (pyLower (pyStrip (env.userInput s.inputCount))) with
        | some k =>
          by_cases h6 : 1 ≤ k ∧ k - 1 < ((linkedinSquidsOf d).length : Int)
          · simp [prompt_squid_selection_run, h1, h2, h4, h5, h6, fileEvOk,
              List.all_append, all_fileEvOk_consoleOuts]
          · cases h3 : env.http (s.httpCount + 1) <;>
              simp [prompt_squid_selection_run, h1, h2, h3, h4, h5, h6, fileEvOk,
                List.all_append, all_fileEvOk_consoleOuts]
        | none =>
          cases h3 : env.http (s.httpCount + 1) <;>
            simp [prompt_squid_selection_run, h1, h2, h3, h4, h5, fileEvOk,
              List.all_append, all_fileEvOk_consoleOuts]

theorem fileOk_account_choice_loop (inp : String) (accounts : List JVal)
    (fuel : Nat) : ∀ (env : Env) (s : St),
    (account_choice_loop accounts fuel env s).2.1.all (fileEvOk inp env.timestamp) = true := by
  induction fuel with
  | zero => intro env s; simp [account_choice_loop_zero]
  | succ fuel ih =>
    intro env s
    cases h5 : pyInt? (pyStrip (env.userInput s.inputCount)) with
    | some k =>
      by_cases h6 : 1 ≤ k ∧ k - 1 < (accounts.length : Int)
      · simp [account_choice_loop_succ, h5, h6, fileEvOk]
      · simpa [account_choice_loop_succ, h5, h6, fileEvOk, List.all_append]
          using ih env { s with inputCount := s.inputCount + 1 }
    | none =>
      simpa [account_choice_loop_succ, h5, fileEvOk, List.all_append]
        using ih env { s with inputCount := s.inputCount + 1 }

theorem fileOk_prompt_account_selection (inp : String) (fuel : Nat)
    (env : Env) (s : St) :
    (prompt_account_selection fuel env s).2.1.all (fileEvOk inp env.timestamp) = true := by
  cases h1 : env.http s.httpCount with
  | failure e => simp [prompt_account_selection_run, h1, fileEvOk]
  | success d =>
    by_cases h2 : linkedinAccountsOf d = []
    · simp [prompt_account_selection_run, h1, h2, fileEvOk]
    · by_cases h3 : (linkedinAccountsOf d).length = 1
      · simp [prompt_account_selection_run, h1, h2, h3, fileEvOk]
      · simpa [prompt_account_selection_run, h1, h2, h3, fileEvOk,
          List.all_append, all_fileEvOk_consoleOuts]
          using fileOk_account_choice_loop inp (linkedinAccountsOf d) fuel env
            { s with httpCount := s.httpCount + 1 }

theorem fileOk_update_squid (inp : String) (sq acc : JVal) (em : Bool)
    (env : Env) (s : St) :
    (update_squid sq acc em env s).2.1.all (fileEvOk inp env.timestamp) = true := by
  cases h1 : env.http s.httpCount <;> simp [update_squid_run, h1, fileEvOk]

theorem fileOk_prompt_empty_squid (inp : String) (sq : JVal) (env : Env) (s : St) :
    (prompt_empty_squid sq env s).2.1.all (fileEvOk inp env.timestamp) = true := by
  by_cases hy : pyLower (env.userInput s.inputCount) = "y"
  · cases h1 : env.http s.httpCount <;>
      simp [prompt_empty_squid_run, hy, h1, fileEvOk]
  · simp [prompt_empty_squid_run, hy, fileEvOk]

theorem fileOk_add_tasks (sq : JVal) (inp : String) (is_file : Bool)
    (env : Env) (s : St) :
    (add_tasks sq inp is_file env s).2.1.all (fileEvOk inp env.timestamp) = true := by
  cases is_file with
  | true =>
    cases hf : env.files (ospathjoin SCRIPT_DIR inp) with
    | none => simp [add_tasks_file_missing _ _ _ _ hf, fileEvOk]
    | some ls =>
      rw [add_tasks_file_run _ _ _ _ _ hf]
      by_cases hu : stripNonBlank ls = []
      · simp [hu, fileEvOk]
      · cases h1 : env.http s.httpCount <;> simp [hu, h1, fileEvOk]
  | false =>
    rw [add_tasks_single_run]
    by_cases hu : pyStrip inp = ""
    · simp [hu, fileEvOk]
    · cases h1 : env.http s.httpCount <;> simp [hu, h1, fileEvOk]

theorem fileOk_poll_loop (inp : String) (rh : JVal) (fuel : Nat) :
    ∀ (env : Env) (s : St),
    (poll_loop rh fuel env s).2.1.all (fileEvOk inp env.timestamp) = true := by
  induction fuel with
  | zero => intro env s; simp [poll_loop_zero]
  | succ fuel ih =>
    intro env s
    cases h1 : env.http s.httpCount with
    | failure e => simp [poll_loop_succ, h1, fileEvOk]
    | success stats =>
      by_cases h2 : (stats.get "is_done").truthy
      · simp [poll_loop_succ, h1, h2, fileEvOk]
      · simpa [poll_loop_succ, h1, h2, fileEvOk, List.all_append]
          using ih env { s with httpCount := s.httpCount + 1 }

theorem fileOk_run_and_poll (inp : String) (sq : JVal) (fuel : Nat)
    (env : Env) (s : St) :
    (run_and_poll sq fuel env s).2.1.all (fileEvOk inp env.timestamp) = true := by
  cases h1 : env.http s.httpCount with
  | failure e => simp [run_and_poll_run, h1, fileEvOk]
  | success b =>
    have hp := fileOk_poll_loop inp (b.get "id") fuel env
      { s with httpCount := s.httpCount + 1 }
    rcases hrec : poll_loop (b.get "id") fuel env { s with httpCount := s.httpCount + 1 }
      with ⟨r, t, sr⟩
    rw [hrec] at hp
    cases r with
    | ok rh0 => simpa [run_and_poll_run, h1, hrec, fileEvOk, List.all_append] using hp
    | error e =>
      cases e <;>
        simpa [run_and_poll_run, h1, hrec, fileEvOk, List.all_append] using hp

theorem fileOk_fetch_results (inp : String) (rh : JVal) (env : Env) (s : St) :
    (fetch_results rh env s).2.1.all (fileEvOk inp env.timestamp) = true := by
  cases h1 : env.http s.httpCount <;> simp [fetch_results_run, h1, fileEvOk]

theorem fileOk_save_to_json (inp : String) (data : JVal) (env : Env) (s : St) :
    (save_to_json data none env s).2.1.all (fileEvOk inp env.timestamp) = true := by
  simp [save_to_json_run, fileEvOk]

theorem fileOk_download_csv (inp : String) (rh : JVal) (env : Env) (s : St) :
    (download_csv rh none env s).2.1.all (fileEvOk inp env.timestamp) = true := by
  cases h1 : env.http s.httpCount with
  | failure e => simp [download_csv_run, h1, fileEvOk]
  | success b =>
    by_cases h2 : (b.get "s3").truthy
    · cases h3 : env.http (s.httpCount + 1) <;>
        simp [download_csv_run, h1, h2, h3, fileEvOk]
    · simp [download_csv_run, h1, h2, fileEvOk]

theorem fileOk_scrape_steps (inp : String) (isf em : Bool) (fuel : Nat)
    (env : Env) (s : St) :
    (scrape_steps inp isf em fuel env s).2.1.all (fileEvOk inp env.timestamp) = true := by
  unfold scrape_steps
  refine M.all_bind _ _ _ _ _ (fileOk_prompt_squid_selection inp env s) ?_
  intro sel
  refine M.all_bind _ _ _ _ _ (fileOk_prompt_account_selection inp fuel env _) ?_
  intro account_id
  refine M.all_bind _ _ _ _ _ (fileOk_update_squid inp _ _ _ env _) ?_
  intro u
  by_cases hb : sel.2
  · rw [if_neg (by simp [hb])]
    refine M.all_bind _ _ _ _ _ (by simp [Pure.pure, M.pure]) ?_
    intro u2
    refine M.all_bind _ _ _ _ _ (fileOk_add_tasks _ inp isf env _) ?_
    intro count
    by_cases hc : count = 0
    · rw [if_pos hc]
      refine M.all_bind _ _ _ _ _ (by simp [logInfo, emit, fileEvOk]) ?_
      intro u3
      simp [Pure.pure, M.pure]
    · rw [if_neg hc]
      refine M.all_bind _ _ _ _ _ (fileOk_run_and_poll inp _ fuel env _) ?_
      intro r_hash
      refine M.all_bind _ _ _ _ _ (fileOk_fetch_results inp _ env _) ?_
      intro final_data
      refine M.all_bind _ _ _ _ _ (fileOk_save_to_json inp _ env _) ?_
      intro u4
      refine M.all_bind _ _ _ _ _ (fileOk_download_csv inp _ env _) ?_
      intro u5
      simp [Pure.pure, M.pure]
  · rw [if_pos (by simp [hb])]
    refine M.all_bind _ _ _ _ _ (fileOk_prompt_empty_squid inp _ env _) ?_
    intro u2
    refine M.all_bind _ _ _ _ _ (fileOk_add_tasks _ inp isf env _) ?_
    intro count
    by_cases hc : count = 0
    · rw [if_pos hc]
      refine M.all_bind _ _ _ _ _ (by simp [logInfo, emit, fileEvOk]) ?_
      intro u3
      simp [Pure.pure, M.pure]
    · rw [if_neg hc]
      refine M.all_bind _ _ _ _ _ (fileOk_run_and_poll inp _ fuel env _) ?_
      intro r_hash
      refine M.all_bind _ _ _ _ _ (fileOk_fetch_results inp _ env _) ?_
      intro final_data
      refine M.all_bind _ _ _ _ _ (fileOk_save_to_json inp _ env _) ?_
      intro u4
      refine M.all_bind _ _ _ _ _ (fileOk_download_csv inp _ env _) ?_
      intro u5
      simp [Pure.pure, M.pure]

theorem fileOk_run_interactive_scrape (inp : String) (isf em : Bool)
    (fuel : Nat) (env : Env) (s : St) :
    (run_interactive_scrape inp isf em fuel env s).2.1.all (fileEvOk inp env.timestamp) = true := by
  unfold run_interactive_scrape
  refine M.all_catchExc _ _ _ _ _ ?_ ?_
  · refine M.all_bind _ _ _ _ _ (fileOk_scrape_steps inp isf em fuel env s) ?_
    intro o
    simp [Pure.pure, M.pure]
  · intro e
    simp [logCritical, emit, fileEvOk]

/-- C3 (amended): the disk I/O of an interactive scrape is limited to
reading the URL list file, writing the JSON and CSV result files, and
writing the squid-id cache file `.squid_id` — in addition, every log
line (`logMsg` event) is appended to `LOG_FILE` by the
`logging.FileHandler` installed at module load.  So the original claim
fails only on the cache file and the log file. -/
theorem claim_C3_disk_io_amended (input_source : String)
    (is_file enrich_email : Bool) (fuel : Nat) (env : Env) (s0 : St)
    (e : Event)
    (he : e ∈ (run_interactive_scrape input_source is_file enrich_email fuel env s0).2.1) :
    (∀ p, e = .fileRead p → p = ospathjoin SCRIPT_DIR input_source) ∧
    (∀ p m c, e = .fileWrite p m c →
      p = squid_cache_file ∨
      p = ospathjoin SCRIPT_DIR ("results_" ++ env.timestamp ++ ".json") ∨
      p = ospathjoin SCRIPT_DIR ("results_" ++ env.timestamp ++ ".csv")) := by
  have hall := fileOk_run_interactive_scrape input_source is_file enrich_email
    fuel env s0
  have hev := List.all_eq_true.mp hall e he
  constructor
  · intro p hp
    rw [hp] at hev
    simpa [fileEvOk] using hev
  · intro p m c hp
    rw [hp] at hev
    simp [fileEvOk] at hev
    tauto

/-- A concrete oracle for the counterexample to the original C3: no
existing squids (so a squid is created and its id cached), then the
account listing fails, ending the run through the top-level handler.
The cache write to `.squid_id` is already in the trace. -/
def envC3 : Env where
  http := fun n =>
    match n with
    | 0 => .success (.obj [("data", .arr [])])
    | 1 => .success (.obj [("id", .str "sq1")])
    | _ => .failure 0
  userInput := fun _ => ""
  files := fun _ => none
  timestamp := "20260101_000000"

/-- C3 (counterexample): the claim that disk I/O is limited to the URL
list read and the JSON/CSV result writes is false — this interactive
scrape writes the squid-id cache file `.squid_id`, which is not the URL
list and is neither a `.json` nor a `.csv` file. -/
theorem claim_C3_counterexample :
    Event.fileWrite squid_cache_file .text (JVal.str "sq1") ∈
      (run_interactive_scrape "urls.txt" true false 5 envC3 ⟨0, 0⟩).2.1 ∧
    squid_cache_file ≠ ospathjoin SCRIPT_DIR "urls.txt" ∧
    squid_cache_file ≠
      ospathjoin SCRIPT_DIR ("results_" ++ envC3.timestamp ++ ".json") ∧
    squid_cache_file ≠
      ospathjoin SCRIPT_DIR ("results_" ++ envC3.timestamp ++ ".csv") := by
  refine ⟨?_, by decide, by decide, by decide⟩
  decide

/-! ## Concrete oracles and witnesses -/

instance {α β : Type} [DecidableEq α] [DecidableEq β] : DecidableEq (Except α β) :=
  fun a b =>
    match a, b with
    | .ok x, .ok y => decidable_of_iff (x = y) (by simp)
    | .error x, .error y => decidable_of_iff (x = y) (by simp)
    | .ok _, .error _ => isFalse (by simp)
    | .error _, .ok _ => isFalse (by simp)

def squid1 : JVal := .obj [("id", .str "s1"), ("crawler", .str LINKEDIN_PROFILE_CRAWLER_ID)]

def squidsBody1 : JVal := .obj [("data", .arr [squid1])]

def account1 : JVal := .obj [("id", .str "acc1"), ("type", .str "linkedin-sync")]

def accountsBody1 : JVal := .obj [("data", .arr [account1])]

def accountsBody0 : JVal := .obj [("data", .arr [])]

/-- A full happy-path oracle for a single-URL scrape: create a squid,
auto-select the one account, submit, run with two polls, fetch, and
download the CSV. -/
def envFull : Env where
  http := fun n =>
    match n with
    | 0 => .success (.obj [("data", .arr [])])
    | 1 => .success (.obj [("id", .str "sq1")])
    | 2 => .success accountsBody1
    | 3 => .success (.obj [])
    | 4 => .success (.obj [])
    | 5 => .success (.obj [("id", .str "run1")])
    | 6 => .success (.obj [("is_done", .bool false), ("percent_done", .num 50)])
    | 7 => .success (.obj [("is_done", .bool true)])
    | 8 => .success (.arr [])
    | 9 => .success (.obj [("s3", .str "s3url")])
    | _ => .success (.str "csvbytes")
  userInput := fun _ => ""
  files := fun _ => none
  timestamp := "20260101_000000"

/-- An oracle for `run_and_poll` alone: start, one not-done poll, then
done. -/
def envPoll : Env where
  http := fun n =>
    match n with
    | 0 => .success (.obj [("id", .str "run1")])
    | 1 => .success (.obj [("is_done", .bool false)])
    | _ => .success (.obj [("is_done", .bool true)])
  userInput := fun _ => ""
  files := fun _ => none
  timestamp := "ts"

/-- Every request fails with the same exception tag. -/
def envFail : Env where
  http := fun _ => .failure 7
  userInput := fun _ => ""
  files := fun _ => none
  timestamp := "ts"

/-- The run starts, then the first poll fails. -/
def envPollFail : Env where
  http := fun n =>
    match n with
    | 0 => .success (.obj [("id", .str "run1")])
    | _ => .failure 9
  userInput := fun _ => ""
  files := fun _ => none
  timestamp := "ts"

/-- The download response carries an S3 URL, but the S3 fetch fails. -/
def envS3Fail : Env where
  http := fun n =>
    match n with
    | 0 => .success (.obj [("s3", .str "s3url")])
    | _ => .failure 5
  userInput := fun _ => ""
  files := fun _ => none
  timestamp := "ts"

/-- One existing LinkedIn squid; the user picks number 1. -/
def envSel : Env where
  http := fun n =>
    match n with
    | 0 => .success squidsBody1
    | _ => .success (.obj [("id", .str "new1")])
  userInput := fun _ => "1"
  files := fun _ => none
  timestamp := "ts"

/-- One existing LinkedIn squid; the user types a non-numeric answer. -/
def envSelB : Env where
  http := fun n =>
    match n with
    | 0 => .success squidsBody1
    | _ => .success (.obj [("id", .str "new1")])
  userInput := fun _ => "abc"
  files := fun _ => none
  timestamp := "ts"

/-- Exactly one `linkedin-sync` account. -/
def envAcc : Env where
  http := fun _ => .success accountsBody1
  userInput := fun _ => ""
  files := fun _ => none
  timestamp := "ts"

/-- No `linkedin-sync` accounts at all. -/
def envNoAcc : Env where
  http := fun _ => .success accountsBody0
  userInput := fun _ => ""
  files := fun _ => none
  timestamp := "ts"

/-- The download response has no `s3` key. -/
def envNoS3 : Env where
  http := fun _ => .success (.obj [("other", .num 1)])
  userInput := fun _ => ""
  files := fun _ => none
  timestamp := "ts"

/-- The download response has an S3 URL and the fetch succeeds. -/
def envS3 : Env where
  http := fun n =>
    match n with
    | 0 => .success (.obj [("s3", .str "s3url")])
    | _ => .success (.str "bytes")
  userInput := fun _ => ""
  files := fun _ => none
  timestamp := "ts"

/-- A URL list file with two URLs and a blank line. -/
def envFile : Env where
  http := fun _ => .success (.obj [])
  userInput := fun _ => ""
  files := fun p =>
    if p = ospathjoin SCRIPT_DIR "urls.txt" then
      some ["  https://a  ", "   ", "https://b"]
    else none
  timestamp := "ts"

/-- A URL list file whose every line is blank. -/
def envBlank : Env where
  http := fun _ => .success (.obj [])
  userInput := fun _ => ""
  files := fun p =>
    if p = ospathjoin SCRIPT_DIR "urls.txt" then some ["   ", "", " "]
    else none
  timestamp := "ts"

/-- An oracle whose scrape reaches `add_tasks` with a blank single URL
and exits with nothing to process. -/
def envC8 : Env where
  http := fun n =>
    match n with
    | 0 => .success (.obj [("data", .arr [])])
    | 1 => .success (.obj [("id", .str "sq1")])
    | 2 => .success accountsBody1
    | _ => .success (.obj [])
  userInput := fun _ => ""
  files := fun _ => none
  timestamp := "ts"

/-- Witness for C1: a concrete single-URL scrape against `envFull`
completes and exhibits the claimed operation order (here: squid
created, not emptied, CSV downloaded, one extra poll). -/
theorem claim_C1_interactive_scrape_order_witness :
    run_interactive_scrape "https://u" false false 3 envFull ⟨0, 0⟩ =
      (.ok (),
        (scrape_steps "https://u" false false 3 envFull ⟨0, 0⟩).2.1,
        (scrape_steps "https://u" false false 3 envFull ⟨0, 0⟩).2.2) ∧
    ∃ (madeNew confirmedEmpty gotCsv : Bool) (k : Nat),
      (madeNew = true → confirmedEmpty = false) ∧
      stepsOf (scrape_steps "https://u" false false 3 envFull ⟨0, 0⟩).2.1 =
        [.listSquids] ++ (if madeNew then [.createSquid] else []) ++
        [.writeCache, .listAccounts, .updateSquid] ++
        (if confirmedEmpty then [.emptySquid] else []) ++
        (if false then [.readUrls] else []) ++ [.addTasks] ++
        (.startRun :: List.replicate (k + 1) .pollStats) ++
        [.fetchResults, .writeJson] ++
        (.downloadReq :: (if gotCsv then [.s3Get, .writeCsv] else [])) :=
  claim_C1_interactive_scrape_order "https://u" false false 3 envFull ⟨0, 0⟩ _ _
    (by decide)

/-- Witness for C2: against `envPoll` the run polls once, sleeps 10
seconds, polls again and returns on the done response. -/
theorem claim_C2_poll_until_done_witness :
    DEFAULT_POLL_INTERVAL = 10 ∧
    ∃ (b : JVal) (k : Nat),
      envPoll.http 0 = .success b ∧
      JVal.str "run1" = b.get "id" ∧
      (∀ i < k, ∃ bi, envPoll.http (0 + 1 + i) = .success bi ∧
        (bi.get "is_done").truthy = false) ∧
      (∃ bk, envPoll.http (0 + 1 + k) = .success bk ∧
        (bk.get "is_done").truthy = true) ∧
      ([.logMsg .info "Starting run for squid...",
        .http ⟨.post, .api ["runs"], some (JVal.obj [("squid", .str "sq1")]), []⟩,
        .logMsg .info "Run started."] ++ pollEvts (.str "run1") 1 :
          List Event) =
        [.logMsg .info "Starting run for squid...",
         .http ⟨.post, .api ["runs"], some (JVal.obj [("squid", .str "sq1")]), []⟩,
         .logMsg .info "Run started."] ++ pollEvts (.str "run1") k :=
  claim_C2_poll_until_done (.str "sq1") 5 envPoll ⟨0, 0⟩ (.str "run1")
    ([.logMsg .info "Starting run for squid...",
      .http ⟨.post, .api ["runs"], some (JVal.obj [("squid", .str "sq1")]), []⟩,
      .logMsg .info "Run started."] ++ pollEvts (.str "run1") 1)
    ⟨3, 0⟩ (by decide)

/-- Witness for C3 (amended): the cache write in the `envC3` trace is
indeed to the `.squid_id` cache path. -/
theorem claim_C3_disk_io_amended_witness :
    (∀ p, Event.fileWrite squid_cache_file .text (JVal.str "sq1") = .fileRead p →
      p = ospathjoin SCRIPT_DIR "urls.txt") ∧
    (∀ p m c,
      Event.fileWrite squid_cache_file .text (JVal.str "sq1") = .fileWrite p m c →
      p = squid_cache_file ∨
      p = ospathjoin SCRIPT_DIR ("results_" ++ envC3.timestamp ++ ".json") ∨
      p = ospathjoin SCRIPT_DIR ("results_" ++ envC3.timestamp ++ ".csv")) :=
  claim_C3_disk_io_amended "urls.txt" true false 5 envC3 ⟨0, 0⟩
    (Event.fileWrite squid_cache_file .text (JVal.str "sq1")) (by decide)

/-- Witness for C4: the failure clauses at concrete failing oracles —
a failing `create_squid`, a failure on the first poll, and a failing S3
fetch — each re-raise the tagged exception after one request. -/
theorem claim_C4_request_failures_reraised_witness :
    ((create_squid envFail ⟨0, 0⟩).1 = .error (.requestException 7) ∧
     (create_squid envFail ⟨0, 0⟩).2.2.httpCount = 0 + 1 ∧
     ∃ m, Event.logMsg .error m ∈ (create_squid envFail ⟨0, 0⟩).2.1) ∧
    ((run_and_poll (.str "sq1") 5 envPollFail ⟨0, 0⟩).1 =
        .error (.requestException 9) ∧
     (run_and_poll (.str "sq1") 5 envPollFail ⟨0, 0⟩).2.2.httpCount = 0 + 1 + 1 ∧
     ∃ m, Event.logMsg .error m ∈
        (run_and_poll (.str "sq1") 5 envPollFail ⟨0, 0⟩).2.1) ∧
    ((download_csv (.str "r1") none envS3Fail ⟨0, 0⟩).1 =
        .error (.requestException 5) ∧
     (download_csv (.str "r1") none envS3Fail ⟨0, 0⟩).2.2.httpCount = 0 + 1 + 1 ∧
     ∃ m, Event.logMsg .error m ∈
        (download_csv (.str "r1") none envS3Fail ⟨0, 0⟩).2.1) :=
  ⟨claim_C4_request_failures_reraised.1 envFail ⟨0, 0⟩ 7 rfl,
   claim_C4_request_failures_reraised.2.2.2.2.2.2.2.2.2.2.1 (.str "sq1") 4
     envPollFail ⟨0, 0⟩ 9 (.obj [("id", .str "run1")]) rfl rfl,
   claim_C4_request_failures_reraised.2.2.2.2.2.2.2.2.2.2.2.2.2 (.str "r1")
     envS3Fail ⟨0, 0⟩ 5 (.obj [("s3", .str "s3url")]) rfl (by decide) rfl⟩

/-- Witness for C5: choosing `1` with one listed squid reuses it;
typing `abc` creates a new squid. -/
theorem claim_C5_squid_selection_cases_witness :
    ((prompt_squid_selection envSel ⟨0, 0⟩).1 =
      .ok (((linkedinSquidsOf squidsBody1).getD ((1 : Int) - 1).toNat .null).get "id",
        false)) ∧
    ((prompt_squid_selection envSelB ⟨0, 0⟩).1 =
      .ok ((JVal.obj [("id", .str "new1")]).get "id", true)) :=
  ⟨claim_C5_squid_selection_cases.1 envSel ⟨0, 0⟩ squidsBody1 1 rfl (by decide)
     (by decide) (by decide) (by decide),
   claim_C5_squid_selection_cases.2.1 envSelB ⟨0, 0⟩ squidsBody1
     (.obj [("id", .str "new1")]) rfl rfl (Or.inr (Or.inr (Or.inl (by decide))))⟩

/-- Witness for C6: the concrete update request carries exactly the one
account id, and the auto-selected account is the one `linkedin-sync`
account of the listing. -/
theorem claim_C6_update_payload_single_account_witness :
    (Event.http ⟨.post, .api ["squids", (JVal.str "sq1").pyStr],
        some (JVal.obj
          [("accounts", .arr [JVal.str "acc1"]),
           ("no_line_breaks", .bool true),
           ("params", .obj [("functions", .obj [("email", .bool false)])])]), []⟩ ∈
      (update_squid (.str "sq1") (.str "acc1") false envFail ⟨0, 0⟩).2.1 ∧
     ∀ req : HttpReq,
       Event.http req ∈ (update_squid (.str "sq1") (.str "acc1") false envFail ⟨0, 0⟩).2.1 →
       req.body = some (JVal.obj
         [("accounts", .arr [JVal.str "acc1"]),
          ("no_line_breaks", .bool true),
          ("params", .obj [("functions", .obj [("email", .bool false)])])])) ∧
    (∃ a ∈ linkedinAccountsOf accountsBody1,
      JVal.str "acc1" = a.get "id" ∧ a.get "type" = JVal.str "linkedin-sync") :=
  ⟨claim_C6_update_payload_single_account.1 (.str "sq1") (.str "acc1") false
     envFail ⟨0, 0⟩,
   claim_C6_update_payload_single_account.2 3 envAcc ⟨0, 0⟩ accountsBody1
     (.str "acc1") (prompt_account_selection 3 envAcc ⟨0, 0⟩).2.1
     (prompt_account_selection 3 envAcc ⟨0, 0⟩).2.2 rfl (by decide)⟩

/-- Witness for C7: the two-URL file yields exactly two stripped tasks
and a count of 2; a padded single URL yields exactly one stripped task. -/
theorem claim_C7_add_tasks_one_task_per_line_witness :
    (add_tasks (.str "sq1") "urls.txt" true envFile ⟨0, 0⟩ =
      (.ok ((["  https://a  ", "   ", "https://b"].map pyStrip).filter
          (fun u => u ≠ "")).length,
        [.fileRead (ospathjoin SCRIPT_DIR "urls.txt"),
         .logMsg .info "Adding tasks to squid...",
         .http ⟨.post, .api ["tasks"],
           some (tasksPayload ((["  https://a  ", "   ", "https://b"].map pyStrip).filter
             (fun u => u ≠ "")) (.str "sq1")), []⟩,
         .logMsg .info "Successfully added tasks."],
        ⟨0 + 1, 0⟩)) ∧
    (add_tasks (.str "sq1") "  https://c " false envFile ⟨0, 0⟩ =
      (.ok 1,
        [.logMsg .info "Adding tasks to squid...",
         .http ⟨.post, .api ["tasks"],
           some (tasksPayload [pyStrip "  https://c "] (.str "sq1")), []⟩,
         .logMsg .info "Successfully added tasks."],
        ⟨0 + 1, 0⟩)) :=
  ⟨claim_C7_add_tasks_one_task_per_line.1 (.str "sq1") "urls.txt" envFile ⟨0, 0⟩
     ["  https://a  ", "   ", "https://b"] (.obj []) (by decide) rfl (by decide),
   claim_C7_add_tasks_one_task_per_line.2 (.str "sq1") "  https://c " envFile
     ⟨0, 0⟩ (.obj []) rfl (by decide)⟩

/-- Witness for C8: the all-blank URL file produces a requestless 0,
and the blank-single-URL scrape against `envC8` starts no run. -/
theorem claim_C8_no_urls_no_run_witness :
    (add_tasks (.str "sq1") "urls.txt" true envBlank ⟨0, 0⟩ =
      (.ok 0,
        [.fileRead (ospathjoin SCRIPT_DIR "urls.txt"),
         .logMsg .warning "No URLs found to process."], ⟨0, 0⟩)) ∧
    (Step.startRun ∉ stepsOf (scrape_steps "" false false 3 envC8 ⟨0, 0⟩).2.1 ∧
     Step.pollStats ∉ stepsOf (scrape_steps "" false false 3 envC8 ⟨0, 0⟩).2.1 ∧
     Step.fetchResults ∉ stepsOf (scrape_steps "" false false 3 envC8 ⟨0, 0⟩).2.1 ∧
     Step.writeJson ∉ stepsOf (scrape_steps "" false false 3 envC8 ⟨0, 0⟩).2.1 ∧
     Step.downloadReq ∉ stepsOf (scrape_steps "" false false 3 envC8 ⟨0, 0⟩).2.1) :=
  ⟨claim_C8_no_urls_no_run.1 (.str "sq1") "urls.txt" envBlank ⟨0, 0⟩
     ["   ", "", " "] (by decide) (by decide),
   claim_C8_no_urls_no_run.2.2 "" false false 3 envC8 ⟨0, 0⟩
     (scrape_steps "" false false 3 envC8 ⟨0, 0⟩).2.1
     (scrape_steps "" false false 3 envC8 ⟨0, 0⟩).2.2 (by decide)⟩

/-- Witness for C9: an empty account listing raises the `ValueError`,
and a single-account listing auto-selects without prompting. -/
theorem claim_C9_account_selection_edge_cases_witness :
    (prompt_account_selection 3 envNoAcc ⟨0, 0⟩ =
      (.error (.valueError "No LinkedIn accounts available."),
        [.logMsg .info "Listing accounts...",
         .http ⟨.get, .api ["accounts"], none, []⟩,
         .logMsg .info "Fetched accounts.",
         .logMsg .error "No LinkedIn accounts found. Please add a LinkedIn account on Lobstr.io first."],
        ⟨0 + 1, 0⟩)) ∧
    ((prompt_account_selection 3 envAcc ⟨0, 0⟩ =
      (.ok (account1.get "id"),
        [.logMsg .info "Listing accounts...",
         .http ⟨.get, .api ["accounts"], none, []⟩,
         .logMsg .info "Fetched accounts.",
         .logMsg .info "Auto-selecting only available LinkedIn account."],
        ⟨0 + 1, 0⟩)) ∧
     (∀ m : String,
       Event.promptInput m ∉ (prompt_account_selection 3 envAcc ⟨0, 0⟩).2.1) ∧
     (prompt_account_selection 3 envAcc ⟨0, 0⟩).2.2.inputCount = 0) :=
  ⟨claim_C9_account_selection_edge_cases.1 3 envNoAcc ⟨0, 0⟩ accountsBody0 rfl
     (by decide),
   claim_C9_account_selection_edge_cases.2 3 envAcc ⟨0, 0⟩ accountsBody1
     account1 rfl (by decide)⟩

/-- Witness for C10: a response without `s3` returns cleanly with no
write, and a successful S3 fetch writes the timestamped CSV. -/
theorem claim_C10_download_csv_no_s3_witness :
    (download_csv (.str "r1") none envNoS3 ⟨0, 0⟩ =
      (.ok (),
        [.logMsg .info "Initiating CSV download for run...",
         .http ⟨.get, .api ["runs", (JVal.str "r1").pyStr, "download"], none, []⟩,
         .logMsg .error "No S3 URL returned for CSV download."],
        ⟨0 + 1, 0⟩)) ∧
    (∃ b, envS3.http 0 = .success b ∧ (b.get "s3").truthy = true ∧
      (∃ content, envS3.http (0 + 1) = .success content ∧
        JVal.str "bytes" = content) ∧
      ospathjoin SCRIPT_DIR ("results_" ++ envS3.timestamp ++ ".csv") =
        ospathjoin SCRIPT_DIR ("results_" ++ envS3.timestamp ++ ".csv") ∧
      (WriteMode.binary = WriteMode.binary) ∧
      (download_csv (.str "r1") none envS3 ⟨0, 0⟩).1 = .ok ()) :=
  ⟨claim_C10_download_csv_no_s3.1 (.str "r1") envNoS3 ⟨0, 0⟩
     (.obj [("other", .num 1)]) rfl (by decide),
   claim_C10_download_csv_no_s3.2 (.str "r1") envS3 ⟨0, 0⟩
     (download_csv (.str "r1") none envS3 ⟨0, 0⟩).1
     (download_csv (.str "r1") none envS3 ⟨0, 0⟩).2.1
     (download_csv (.str "r1") none envS3 ⟨0, 0⟩).2.2
     (ospathjoin SCRIPT_DIR ("results_" ++ envS3.timestamp ++ ".csv"))
     .binary (.str "bytes") rfl (by decide)⟩
